import Mathlib

/-!
The orocos.rb extension (`ext/rorocos.cc`): connection policies, port connection,
lifecycle transitions and typed reads.

A shallow embedding of the C++ functions of `ext/rorocos.cc`.  Ruby values are an
inductive type, a Ruby exception raised with `rb_raise` is the `error` case of
`Except`, a remote CORBA call is an oracle whose answer is either a returned value
or a CORBA exception, and the process-wide registry of local ports is passed
explicitly.
-/

namespace Orocos

/-! ## Ruby values and the conversions of the Ruby C API used by the extension -/

/-- The Ruby values that can be stored in a policy hash. -/
inductive RValue where
  | nil
  | rtrue
  | rfalse
  | fixnum (n : Int)
  | symbol (name : String)
  | str (s : String)
  deriving DecidableEq, Repr

/-- The exceptions of the CORBA layer: the two user exceptions of the data flow
and service interfaces, and the system exceptions. -/
inductive CorbaException where
  | CNoSuchPortException
  | CNoSuchNameException
  | COMM_FAILURE
  | TRANSIENT
  | INV_OBJREF
  | SystemException
  | Exception
  deriving DecidableEq, Repr

/-- A Ruby `ID`: the number `rb_intern` gives an interned name and `SYM2ID` gives a
symbol. The model identifies an ID by the name that was interned. An ID is not a
Ruby value. -/
abbrev ID := String

/-- The function `rb_intern`: the ID of a name. -/
abbrev rb_intern (name : String) : ID := name

/-- What the `%s` of an exception message is formatted with: a C string, or the text
that `inspect` or `to_s` gives when `rb_funcall` is called with an `ID` as its
receiver in place of a Ruby value. The latter is the text of whatever object the bits
of the ID denote; it is not the name of the symbol the ID was taken from. -/
inductive MessageArg where
  | text (s : String)
  | ofID (id : ID)
  deriving DecidableEq, Repr

/-- The Ruby exceptions the extension raises: the exception class and what it
carries. `ArgError` is `rb_eArgError` with its format and the argument of the format,
`TypeError` and `RangeError` are raised by the conversions of the Ruby C API,
`NotFound`, `ConnectionFailed` and `StateTransitionFailed` are the classes defined in
`Init_rorocos_ext`, and `CORBA` is what `CORBA_EXCEPTION_HANDLERS` raises. -/
inductive RubyError where
  | ArgError (msg : String) (arg : MessageArg)
  | TypeError (what : String)
  | RangeError (what : String)
  | NotFound (msg : String)
  | ConnectionFailed (msg : String)
  | StateTransitionFailed (msg : String)
  | CORBA (e : CorbaException)
  deriving DecidableEq, Repr

/-- The result of a function of the extension: a value, or a raised Ruby exception. -/
abbrev Raises (α : Type) := Except RubyError α

/-- A Ruby hash with its default value `nil`, as a list of associations. -/
abbrev RHash := List (RValue × RValue)

/-- The function `rb_hash_aref`: the value stored under `key`, `nil` when there is none. -/
def rb_hash_aref (options : RHash) (key : RValue) : RValue :=
  match options.lookup key with
  | some v => v
  | none => RValue.nil

/-- The symbol `ID2SYM(rb_intern(name))`. -/
def sym (name : String) : RValue := RValue.symbol name

/-- The conversion `SYM2ID`: the ID of a symbol; a value that is not a
symbol has no ID (`rb_sym2id` raises a `TypeError`). -/
def SYM2ID (v : RValue) : Raises ID :=
  match v with
  | RValue.symbol name => Except.ok name
  | _ => Except.error (RubyError.TypeError "expected Symbol")

/-- Bounds of the C `int` type. -/
def INT_MIN : Int := -2147483648

/-- Upper bound of the C `int` type. -/
def INT_MAX : Int := 2147483647

/-- The conversion `NUM2INT`: an integer that fits a C `int`; `RangeError` for an
integer that does not fit, `TypeError` for `nil` and the other non-numeric values. -/
def NUM2INT (v : RValue) : Raises Int :=
  match v with
  | RValue.fixnum n =>
    if INT_MIN ≤ n ∧ n ≤ INT_MAX then Except.ok n
    else Except.error (RubyError.RangeError "integer too big to convert to int")
  | _ => Except.error (RubyError.TypeError "no implicit conversion to integer")

/-- The test `RTEST`: every value but `nil` and `false` is true. -/
def RTEST (v : RValue) : Bool :=
  match v with
  | RValue.nil => false
  | RValue.rfalse => false
  | _ => true

/-! ## Connection policies -/

/-- The enumeration `RTT::corba::CConnectionModel`. -/
inductive CConnectionModel where
  | CData
  | CBuffer
  deriving DecidableEq, Repr

/-- The enumeration `RTT::corba::CLockPolicy`, the two values the extension sets. -/
inductive CLockPolicy where
  | CLocked
  | CLockFree
  deriving DecidableEq, Repr

/-- The structure `RTT::corba::CConnPolicy`, the fields `policyFromHash` sets. -/
structure CConnPolicy where
  type : CConnectionModel
  init : Bool
  lock_policy : CLockPolicy
  pull : Bool
  size : Int
  transport : Int
  data_size : Int
  deriving DecidableEq, Repr

/-- The function `policyFromHash`: reads `type`, `transport`, `data_size`, `init`,
`pull`, `size` and `lock` from the hash in that order. `conn_type` and `lock_type`
hold the result of `SYM2ID`, an ID; the two `else` branches pass that ID, not the
symbol, as the receiver of `inspect` and of `to_s`, so the message of the
`ArgumentError` is formatted with `MessageArg.ofID`. -/
def policyFromHash (options : RHash) : Raises CConnPolicy := do
  let conn_type ← SYM2ID (rb_hash_aref options (sym "type"))
  let type ←
    if conn_type = rb_intern "data" then Except.ok CConnectionModel.CData
    else if conn_type = rb_intern "buffer" then Except.ok CConnectionModel.CBuffer
    else
      (Except.error
        (RubyError.ArgError "invalid connection type %s" (MessageArg.ofID conn_type)))
  let transport ← NUM2INT (rb_hash_aref options (sym "transport"))
  let data_size ← NUM2INT (rb_hash_aref options (sym "data_size"))
  let init := RTEST (rb_hash_aref options (sym "init"))
  let pull := RTEST (rb_hash_aref options (sym "pull"))
  let size ← NUM2INT (rb_hash_aref options (sym "size"))
  let lock_type ← SYM2ID (rb_hash_aref options (sym "lock"))
  let lock_policy ←
    if lock_type = rb_intern "locked" then Except.ok CLockPolicy.CLocked
    else if lock_type = rb_intern "lock_free" then Except.ok CLockPolicy.CLockFree
    else
      (Except.error
        (RubyError.ArgError "invalid locking type %s" (MessageArg.ofID lock_type)))
  return { type := type, init := init, lock_policy := lock_policy, pull := pull,
           size := size, transport := transport, data_size := data_size }

/-- A policy hash with the seven keys, for the examples. -/
def samplePolicy (type : String) (size : Int) (lock : String) : RHash :=
  [(sym "type", sym type), (sym "transport", RValue.fixnum 0),
   (sym "data_size", RValue.fixnum 0), (sym "init", RValue.rfalse),
   (sym "pull", RValue.rtrue), (sym "size", RValue.fixnum size), (sym "lock", sym lock)]

/-- A policy hash that lacks the key `init` and is otherwise valid. -/
def policyWithoutInit : RHash :=
  [(sym "type", sym "data"), (sym "transport", RValue.fixnum 0),
   (sym "data_size", RValue.fixnum 0), (sym "pull", RValue.rtrue),
   (sym "size", RValue.fixnum 1), (sym "lock", sym "locked")]

/-- A policy hash that lacks the key `size` and is otherwise valid. -/
def policyWithoutSize : RHash :=
  [(sym "type", sym "data"), (sym "transport", RValue.fixnum 0),
   (sym "data_size", RValue.fixnum 0), (sym "init", RValue.rfalse),
   (sym "pull", RValue.rtrue), (sym "lock", sym "locked")]

/-- Whether a result is a raised exception. -/
def Raises.failed {α : Type} (r : Raises α) : Bool :=
  match r with
  | Except.ok _ => false
  | Except.error _ => true

/-! ## Remote objects and the CORBA layer -/

/-- The answer of a remote CORBA call: the value it returned, or the CORBA
exception it raised. -/
inductive CorbaResult (α : Type) where
  | returned (a : α)
  | raised (e : CorbaException)
  deriving DecidableEq, Repr

/-- Modelled from the spec: the macro `CORBA_EXCEPTION_HANDLERS` of `rorocos.hh`,
which is not among the sources. It closes every `try` block of the extension and
turns a CORBA exception that no earlier `catch` clause took into a Ruby exception
of the CORBA layer (the catch-all remote communication failure of the error
taxonomy), keeping which exception it was. -/
def CORBA_EXCEPTION_HANDLERS (e : CorbaException) : RubyError := RubyError.CORBA e

/-- A reference to a remote `CDataFlowInterface`, the port directory of a component. -/
structure CDataFlowInterface where
  ior : String
  deriving DecidableEq, Repr

/-- A reference to a remote `CTaskContext`. -/
structure CTaskContext where
  ior : String
  deriving DecidableEq, Repr

/-- A reference to a remote `CService`. -/
structure CService where
  ior : String
  deriving DecidableEq, Repr

/-- The structure `RTaskContext` wrapped by an `Orocos::TaskContext` object. -/
structure RTaskContext where
  task : CTaskContext
  main_service : CService
  ports : CDataFlowInterface
  deriving DecidableEq, Repr

/-- A Ruby port object: what `getPortReference` reads from it. -/
structure Port where
  task : RTaskContext
  task_name : String
  name : String
  deriving DecidableEq, Repr

/-- The result of `getPortReference`: the task context, the task name and the port name. -/
def getPortReference (port : Port) : RTaskContext × String × String :=
  (port.task, port.task_name, port.name)

/-- The five state changing methods of `_objref_CTaskContext` that are passed to
`call_checked_state_change` as a pointer to member. -/
inductive CTaskContextMethod where
  | configure
  | start
  | stop
  | cleanup
  | resetException
  deriving DecidableEq, Repr

/-- The enumeration `RTT::corba::CPortType`. -/
inductive CPortType where
  | CInput
  | COutput
  deriving DecidableEq, Repr

/-- A remote call issued by the extension, with its receiver and arguments. -/
inductive RemoteCall where
  | createConnection (receiver : CDataFlowInterface) (local_name : String)
      (remote : CDataFlowInterface) (remote_name : String) (policy : CConnPolicy)
  | removeConnection (receiver : CDataFlowInterface) (local_name : String)
      (remote : CDataFlowInterface) (remote_name : String)
  | disconnectPort (receiver : CDataFlowInterface) (name : String)
  | getPortType (receiver : CDataFlowInterface) (name : String)
  | getResultType (receiver : CService) (name : String)
  | stateChange (receiver : CTaskContext) (m : CTaskContextMethod)
  deriving DecidableEq, Repr

/-- Everything outside the extension during one call: what each remote object
answers to each call, and what a local port reports from `connected()` once the
connection call has been made. -/
structure World where
  createConnection : CDataFlowInterface → String → CDataFlowInterface → String →
    CConnPolicy → CorbaResult Bool
  removeConnection : CDataFlowInterface → String → CDataFlowInterface → String →
    CorbaResult Bool
  disconnectPort : CDataFlowInterface → String → CorbaResult Unit
  getPortType : CDataFlowInterface → String → CorbaResult CPortType
  getResultType : CService → String → CorbaResult String
  stateChange : CTaskContext → CTaskContextMethod → CorbaResult Bool
  connected : String → Bool

/-! ## The RTT type system -/

/-- A data sample, as the bytes of its representation. -/
abbrev Sample := List Nat

/-- The interface `orogen_transports::TypelibMarshallerBase`: whether the type is a
plain typelib type, the typelib image of an orocos sample
(`refreshTypelibSample`), the orocos image of a typelib sample, and the orocos
sample a new handle holds. -/
structure TypelibMarshallerBase where
  isPlainTypelibType : Bool
  toTypelib : Sample → Sample
  toOrocos : Sample → Sample
  initial : Sample

/-- A transporter registered for a type under a protocol id. -/
inductive Transporter where
  | corba
  | typelib (m : TypelibMarshallerBase)
  | other

/-- The protocol id of the CORBA transport. -/
def ORO_CORBA_PROTOCOL_ID : Nat := 1

/-- The protocol id of the typelib marshaller. -/
def TYPELIB_MARSHALLER_ID : Nat := 42

/-- The class `RTT::types::TypeInfo`: the type name and its transporters by protocol id. -/
structure TypeInfo where
  name : String
  protocols : List (Nat × Transporter)

/-- The method `TypeInfo::hasProtocol`. -/
def TypeInfo.hasProtocol (ti : TypeInfo) (id : Nat) : Bool :=
  (ti.protocols.lookup id).isSome

/-- The method `TypeInfo::getProtocol`. -/
def TypeInfo.getProtocol (ti : TypeInfo) (id : Nat) : Option Transporter :=
  ti.protocols.lookup id

/-- The cast `dynamic_cast<orogen_transports::TypelibMarshallerBase*>`. -/
def asTypelibMarshaller (t : Option Transporter) : Option TypelibMarshallerBase :=
  match t with
  | some (Transporter.typelib m) => some m
  | _ => none

/-- The repository `RTT::types::TypeInfoRepository`: the registered types by name. -/
abbrev TypeInfoRepository := String → Option TypeInfo

/-- The function `get_type_info(name, do_check)`: the registered type or a null
pointer, and an `ArgumentError` for a null pointer when `do_check` is set. -/
def get_type_info (type_registry : TypeInfoRepository) (name : String) (do_check : Bool) :
    Raises (Option TypeInfo) :=
  let ti := type_registry name
  if do_check ∧ ti.isNone then
    Except.error (RubyError.ArgError "type '%s' is not registered in the RTT type system"
      (MessageArg.text name))
  else Except.ok ti

/-- Modelled from the spec: the call `get_type_info(name)` with `do_check` left to
the default that the declaration in `rorocos.hh` gives it; that header is not among
the sources. The lookup fails for an unregistered name and the callers use the
result without a null test, so the default is the checking lookup. -/
def get_type_info_checked (type_registry : TypeInfoRepository) (name : String) :
    Raises TypeInfo :=
  match get_type_info type_registry name true with
  | Except.error e => Except.error e
  | Except.ok (some ti) => Except.ok ti
  | Except.ok none =>
    Except.error (RubyError.ArgError "type '%s' is not registered in the RTT type system"
      (MessageArg.text name))

/-- The function `get_typelib_transport(ti, do_check)`. -/
def get_typelib_transport (ti : TypeInfo) (do_check : Bool) :
    Raises (Option TypelibMarshallerBase) :=
  if ti.hasProtocol TYPELIB_MARSHALLER_ID then
    Except.ok (asTypelibMarshaller (ti.getProtocol TYPELIB_MARSHALLER_ID))
  else if do_check then
    Except.error (RubyError.ArgError "type '%s' does not have a typelib transport"
      (MessageArg.text ti.name))
  else Except.ok none

/-! ## Local proxy ports and the registry of the CORBA access object -/

/-- The direction of a local port. -/
inductive PortDirection where
  | Input
  | Output
  deriving DecidableEq, Repr

/-- A local port created by `TypeInfo::inputPort` or `TypeInfo::outputPort`. -/
structure LocalPort where
  name : String
  direction : PortDirection
  type_name : String
  deriving DecidableEq, Repr

/-- The method `TypeInfo::inputPort`. -/
def TypeInfo.inputPort (ti : TypeInfo) (name : String) : LocalPort :=
  { name := name, direction := PortDirection.Input, type_name := ti.name }

/-- The method `TypeInfo::outputPort`. -/
def TypeInfo.outputPort (ti : TypeInfo) (name : String) : LocalPort :=
  { name := name, direction := PortDirection.Output, type_name := ti.name }

/-- The object `CorbaAccess::instance()`: the local ports registered on the data
flow interface of the process, that interface, and the name it gives the local
port created for a remote port. -/
structure CorbaAccess where
  ports : List LocalPort
  getDataFlowInterface : CDataFlowInterface
  getLocalPortName : Port → String

/-- Modelled from the spec: the method `CorbaAccess::addPort`, whose code is not
among the sources; it registers the endpoint, and registering is idempotent. -/
def CorbaAccess.addPort (corba : CorbaAccess) (p : LocalPort) : CorbaAccess :=
  { corba with ports := if p ∈ corba.ports then corba.ports else p :: corba.ports }

/-- Modelled from the spec: the method `CorbaAccess::removePort`, whose code is not
among the sources; it deregisters the endpoint, and deregistering is idempotent. -/
def CorbaAccess.removePort (corba : CorbaAccess) (p : LocalPort) : CorbaAccess :=
  { corba with ports := corba.ports.filter (fun q => decide (q ≠ p)) }

/-- What a function that connects ports leaves behind: the CORBA access object with
its registry, the remote calls it issued in order, and its result. -/
structure Run (α : Type) where
  corba : CorbaAccess
  calls : List RemoteCall
  result : Raises α

/-! ## Local readers and writers of remote ports -/

/-- The function `do_input_port_writer`: creates a local output port, registers it,
and asks the data flow interface of the process to connect it to the remote input
port. -/
def do_input_port_writer (w : World) (type_registry : TypeInfoRepository)
    (corba : CorbaAccess) (port : Port) (type_name : String) (policy : RHash) :
    Run LocalPort :=
  let (task, _, port_name) := getPortReference port
  match get_type_info_checked type_registry type_name with
  | Except.error e => { corba := corba, calls := [], result := Except.error e }
  | Except.ok ti =>
    let local_name := corba.getLocalPortName port
    let local_port := ti.outputPort local_name
    let corba1 := corba.addPort local_port
    match policyFromHash policy with
    | Except.error e => { corba := corba1, calls := [], result := Except.error e }
    | Except.ok corba_policy =>
      let call := RemoteCall.createConnection corba1.getDataFlowInterface local_name
        task.ports port_name corba_policy
      match w.createConnection corba1.getDataFlowInterface local_name task.ports port_name
          corba_policy with
      | CorbaResult.raised e =>
        { corba := corba1, calls := [call],
          result := Except.error (CORBA_EXCEPTION_HANDLERS e) }
      | CorbaResult.returned result =>
        if !(w.connected local_name) || !result then
          { corba := corba1.removePort local_port, calls := [call],
            result := Except.error (RubyError.ConnectionFailed
              "failed to connect the writer object to its remote port") }
        else { corba := corba1, calls := [call], result := Except.ok local_port }

/-- The function `do_output_port_reader`: creates a local input port, registers it,
and asks the remote data flow interface to connect the remote output port to it. -/
def do_output_port_reader (w : World) (type_registry : TypeInfoRepository)
    (corba : CorbaAccess) (port : Port) (type_name : String) (policy : RHash) :
    Run LocalPort :=
  let (task, _, port_name) := getPortReference port
  match get_type_info_checked type_registry type_name with
  | Except.error e => { corba := corba, calls := [], result := Except.error e }
  | Except.ok ti =>
    let local_name := corba.getLocalPortName port
    let local_port := ti.inputPort local_name
    let corba1 := corba.addPort local_port
    match policyFromHash policy with
    | Except.error e => { corba := corba1, calls := [], result := Except.error e }
    | Except.ok corba_policy =>
      let call := RemoteCall.createConnection task.ports port_name
        corba1.getDataFlowInterface local_name corba_policy
      match w.createConnection task.ports port_name corba1.getDataFlowInterface local_name
          corba_policy with
      | CorbaResult.raised e =>
        { corba := corba1, calls := [call],
          result := Except.error (CORBA_EXCEPTION_HANDLERS e) }
      | CorbaResult.returned result =>
        if !result then
          { corba := corba1.removePort local_port, calls := [call],
            result := Except.error (RubyError.ConnectionFailed
              "failed to connect specified ports") }
        else { corba := corba1, calls := [call], result := Except.ok local_port }

/-! ## Lifecycle transitions -/

/-- The function `call_checked_state_change`: calls the method `m` on the remote
task and raises `StateTransitionFailed` with `msg` when it returns false. -/
def call_checked_state_change (w : World) (task : RTaskContext) (msg : String)
    (m : CTaskContextMethod) : Raises RValue :=
  match w.stateChange task.task m with
  | CorbaResult.returned true => Except.ok RValue.nil
  | CorbaResult.returned false => Except.error (RubyError.StateTransitionFailed msg)
  | CorbaResult.raised e => Except.error (CORBA_EXCEPTION_HANDLERS e)

/-- The function `task_context_configure`. -/
def task_context_configure (w : World) (task : RTaskContext) : Raises RValue :=
  call_checked_state_change w task "failed to configure" CTaskContextMethod.configure

/-- The function `task_context_start`. -/
def task_context_start (w : World) (task : RTaskContext) : Raises RValue :=
  call_checked_state_change w task "failed to start" CTaskContextMethod.start

/-- The function `task_context_stop`. -/
def task_context_stop (w : World) (task : RTaskContext) : Raises RValue :=
  call_checked_state_change w task "failed to stop" CTaskContextMethod.stop

/-- The function `task_context_cleanup`. -/
def task_context_cleanup (w : World) (task : RTaskContext) : Raises RValue :=
  call_checked_state_change w task "failed to cleanup" CTaskContextMethod.cleanup

/-- The function `task_context_reset_exception`. -/
def task_context_reset_exception (w : World) (task : RTaskContext) : Raises RValue :=
  call_checked_state_change w task
    "failed to transition from the Exception state to Stopped"
    CTaskContextMethod.resetException

/-- The function of the extension that performs a given lifecycle transition. -/
def lifecycle (m : CTaskContextMethod) : World → RTaskContext → Raises RValue :=
  match m with
  | CTaskContextMethod.configure => task_context_configure
  | CTaskContextMethod.start => task_context_start
  | CTaskContextMethod.stop => task_context_stop
  | CTaskContextMethod.cleanup => task_context_cleanup
  | CTaskContextMethod.resetException => task_context_reset_exception

/-- The message each lifecycle function passes to `call_checked_state_change`. -/
def transitionMessage (m : CTaskContextMethod) : String :=
  match m with
  | CTaskContextMethod.configure => "failed to configure"
  | CTaskContextMethod.start => "failed to start"
  | CTaskContextMethod.stop => "failed to stop"
  | CTaskContextMethod.cleanup => "failed to cleanup"
  | CTaskContextMethod.resetException =>
    "failed to transition from the Exception state to Stopped"

/-! ## Connecting two remote ports -/

/-- The function `do_port_connect_to`: parses the policy, then asks the data flow
interface of the output port to create the connection. Gives the remote calls
issued and the result. -/
def do_port_connect_to (w : World) (routput_port rinput_port : Port) (options : RHash) :
    List RemoteCall × Raises RValue :=
  let (out_task, _, out_name) := getPortReference routput_port
  let (in_task, _, in_name) := getPortReference rinput_port
  match policyFromHash options with
  | Except.error e => ([], Except.error e)
  | Except.ok policy =>
    let call := RemoteCall.createConnection out_task.ports out_name in_task.ports in_name
      policy
    match w.createConnection out_task.ports out_name in_task.ports in_name policy with
    | CorbaResult.returned true => ([call], Except.ok RValue.nil)
    | CorbaResult.returned false =>
      ([call], Except.error (RubyError.ConnectionFailed "failed to connect ports"))
    | CorbaResult.raised CorbaException.CNoSuchPortException =>
      ([call], Except.error (RubyError.NotFound "no such port"))
    | CorbaResult.raised e => ([call], Except.error (CORBA_EXCEPTION_HANDLERS e))

/-! ## Reading a sample from a local input port -/

/-- The enumeration `RTT::FlowStatus`. -/
inductive FlowStatus where
  | NoData
  | OldData
  | NewData
  deriving DecidableEq, Repr

/-- A local `RTT::base::InputPortInterface` at the time of a read: the flow status
its channel reports and the last sample the channel holds. -/
structure InputPortInterface where
  status : FlowStatus
  sample : Sample
  deriving DecidableEq, Repr

/-- The method `InputPortInterface::read(source, copy_old_data)`: the flow status and
the content of the data source after the read. The source is overwritten with the
channel sample on `NewData`, and on `OldData` when `copy_old_data` is set. -/
def InputPortInterface.read (local_port : InputPortInterface) (ds : Sample)
    (copy_old_data : Bool) : FlowStatus × Sample :=
  match local_port.status with
  | FlowStatus.NoData => (FlowStatus.NoData, ds)
  | FlowStatus.OldData =>
    (FlowStatus.OldData, if copy_old_data then local_port.sample else ds)
  | FlowStatus.NewData => (FlowStatus.NewData, local_port.sample)

/-- The call `InputPortInterface::read(source)`: `copy_old_data` has the default
value `true` of its declaration. -/
def InputPortInterface.read_default (local_port : InputPortInterface) (ds : Sample) :
    FlowStatus × Sample :=
  local_port.read ds true

/-- A marshalling handle of `TypelibMarshallerBase`: its typelib sample and its
orocos sample. -/
structure Handle where
  typelib_sample : Sample
  orocos_sample : Sample
  deriving DecidableEq, Repr

/-- The method `createHandle`: a handle with no typelib sample yet. -/
def TypelibMarshallerBase.createHandle (m : TypelibMarshallerBase) : Handle :=
  { typelib_sample := [], orocos_sample := m.initial }

/-- The method `setTypelibSample(handle, value, refresh_orocos)`. -/
def TypelibMarshallerBase.setTypelibSample (m : TypelibMarshallerBase) (h : Handle)
    (value : Sample) (refresh_orocos : Bool) : Handle :=
  { typelib_sample := value,
    orocos_sample := if refresh_orocos then m.toOrocos value else h.orocos_sample }

/-- The method `refreshTypelibSample`: the typelib sample becomes the image of the
orocos sample. -/
def TypelibMarshallerBase.refreshTypelibSample (m : TypelibMarshallerBase) (h : Handle) :
    Handle :=
  { h with typelib_sample := m.toTypelib h.orocos_sample }

/-- What a read leaves behind: the returned Ruby value or the raised exception, the
content of the typelib value of the caller, and the number of live handles. -/
structure ReadRun where
  result : Raises RValue
  value : Sample
  live_handles : Nat

/-- The Ruby value returned for a flow status: `Qfalse`, `INT2FIX(0)` or `INT2FIX(1)`. -/
def flowValue (s : FlowStatus) : RValue :=
  match s with
  | FlowStatus.NoData => RValue.rfalse
  | FlowStatus.OldData => RValue.fixnum 0
  | FlowStatus.NewData => RValue.fixnum 1

/-- The function `do_output_reader_read`. -/
def do_output_reader_read (type_registry : TypeInfoRepository)
    (local_port : InputPortInterface) (type_name : String) (value : Sample)
    (copy_old_data : RValue) (live_handles : Nat) : ReadRun :=
  match get_type_info_checked type_registry type_name with
  | Except.error e => { result := Except.error e, value := value, live_handles := live_handles }
  | Except.ok ti =>
    match get_typelib_transport ti false with
    | Except.error e =>
      { result := Except.error e, value := value, live_handles := live_handles }
    | Except.ok typelib_transport =>
      -- the test `!typelib_transport || typelib_transport->isPlainTypelibType()`:
      -- what is left is a marshaller that is not a plain typelib type
      match typelib_transport.filter (fun m => !m.isPlainTypelibType) with
      | none =>
        -- the data source is a reference to the memory of the value
        let (status, ds) := local_port.read_default value
        match status with
        | FlowStatus.NoData =>
          { result := Except.ok RValue.rfalse, value := ds, live_handles := live_handles }
        | FlowStatus.OldData =>
          { result := Except.ok (RValue.fixnum 0), value := ds, live_handles := live_handles }
        | FlowStatus.NewData =>
          { result := Except.ok (RValue.fixnum 1), value := ds, live_handles := live_handles }
      | some m =>
        let handle := m.createHandle
        let live := live_handles + 1
        let handle := m.setTypelibSample handle value false
        let (did_read, ds) := local_port.read handle.orocos_sample (RTEST copy_old_data)
        let handle := { handle with orocos_sample := ds }
        let value :=
          if did_read = FlowStatus.NewData ∨
              (did_read = FlowStatus.OldData ∧ RTEST copy_old_data = true) then
            (m.refreshTypelibSample handle).typelib_sample
          else value
        let live := live - 1
        match did_read with
        | FlowStatus.NoData =>
          { result := Except.ok RValue.rfalse, value := value, live_handles := live }
        | FlowStatus.OldData =>
          { result := Except.ok (RValue.fixnum 0), value := value, live_handles := live }
        | FlowStatus.NewData =>
          { result := Except.ok (RValue.fixnum 1), value := value, live_handles := live }

/-- Whether the message of an exception is formatted with a C string, such as a name. -/
def RubyError.carriesText (e : RubyError) : Bool :=
  match e with
  | RubyError.ArgError _ (MessageArg.text _) => true
  | _ => false

/-- Whether an exception is a `ConnectionFailed`. -/
def RubyError.isConnectionFailed (e : RubyError) : Bool :=
  match e with
  | RubyError.ConnectionFailed _ => true
  | _ => false

/-! ## Disconnecting ports and existence checks -/

/-- The Ruby truth value of a C++ `bool`: `Qtrue` or `Qfalse`. -/
def rbBool (b : Bool) : RValue := if b then RValue.rtrue else RValue.rfalse

/-- The function `do_port_disconnect_all`: asks the data flow interface of the port
to disconnect it. Gives the remote calls issued and the result. -/
def do_port_disconnect_all (w : World) (port : Port) : List RemoteCall × Raises RValue :=
  let (task, _, name) := getPortReference port
  let call := RemoteCall.disconnectPort task.ports name
  match w.disconnectPort task.ports name with
  | CorbaResult.returned _ => ([call], Except.ok RValue.nil)
  | CorbaResult.raised CorbaException.CNoSuchPortException =>
    ([call], Except.error (RubyError.NotFound "no such port"))
  | CorbaResult.raised e => ([call], Except.error (CORBA_EXCEPTION_HANDLERS e))

/-- The function `do_port_disconnect_from`: asks the data flow interface of `self`
to remove its connection to `other`, and returns what it answers. -/
def do_port_disconnect_from (w : World) (self other : Port) :
    List RemoteCall × Raises RValue :=
  let (self_task, _, self_name) := getPortReference self
  let (other_task, _, other_name) := getPortReference other
  let call := RemoteCall.removeConnection self_task.ports self_name other_task.ports
    other_name
  match w.removeConnection self_task.ports self_name other_task.ports other_name with
  | CorbaResult.returned result => ([call], Except.ok (rbBool result))
  | CorbaResult.raised CorbaException.CNoSuchPortException =>
    ([call], Except.error (RubyError.NotFound "no such port"))
  | CorbaResult.raised e => ([call], Except.error (CORBA_EXCEPTION_HANDLERS e))

/-- The function `task_context_has_port_p`: queries the type of the port and turns
`CNoSuchPortException` into false. -/
def task_context_has_port_p (w : World) (self : RTaskContext) (name : String) :
    Raises RValue :=
  match w.getPortType self.ports name with
  | CorbaResult.returned _ => Except.ok RValue.rtrue
  | CorbaResult.raised CorbaException.CNoSuchPortException => Except.ok RValue.rfalse
  | CorbaResult.raised e => Except.error (CORBA_EXCEPTION_HANDLERS e)

/-- The function `task_context_has_operation_p`: queries the result type of the
operation and turns `CNoSuchNameException` into false. -/
def task_context_has_operation_p (w : World) (self : RTaskContext) (name : String) :
    Raises RValue :=
  match w.getResultType self.main_service name with
  | CorbaResult.returned _ => Except.ok RValue.rtrue
  | CorbaResult.raised CorbaException.CNoSuchNameException => Except.ok RValue.rfalse
  | CorbaResult.raised e => Except.error (CORBA_EXCEPTION_HANDLERS e)

/-! ## Teardown of a local port -/

/-- A step of the teardown of a local port. -/
inductive TeardownStep where
  | disconnect (port : LocalPort)
  | removePort (port : LocalPort)
  | delete (port : LocalPort)
  deriving DecidableEq, Repr

/-- The function `delete_port`. `corba_instance` is what `CorbaAccess::instance()`
returns: nothing once the CORBA layer has been deinitialized. Gives the access object
afterwards and the steps performed on the port, in order. -/
def delete_port (corba_instance : Option CorbaAccess) (port : LocalPort) :
    Option CorbaAccess × List TeardownStep :=
  match corba_instance with
  | none => (none, [])
  | some corba =>
    (some (corba.removePort port),
     [TeardownStep.disconnect port, TeardownStep.removePort port, TeardownStep.delete port])

/-! ## Transports of a type -/

/-- The class `RTT::corba::CorbaTypeTransporter`. -/
inductive CorbaTypeTransporter where
  | transporter
  deriving DecidableEq, Repr

/-- The cast `dynamic_cast<RTT::corba::CorbaTypeTransporter*>`. -/
def asCorbaTransporter (t : Option Transporter) : Option CorbaTypeTransporter :=
  match t with
  | some Transporter.corba => some CorbaTypeTransporter.transporter
  | _ => none

/-- The function `get_corba_transport(ti, do_check)`. -/
def get_corba_transport (ti : TypeInfo) (do_check : Bool) :
    Raises (Option CorbaTypeTransporter) :=
  if ti.hasProtocol ORO_CORBA_PROTOCOL_ID then
    Except.ok (asCorbaTransporter (ti.getProtocol ORO_CORBA_PROTOCOL_ID))
  else if do_check then
    Except.error (RubyError.ArgError "type '%s' does not have a CORBA transport"
      (MessageArg.text ti.name))
  else Except.ok none

/-- The function `get_corba_transport(name, do_check)`. -/
def get_corba_transport_by_name (type_registry : TypeInfoRepository) (name : String)
    (do_check : Bool) : Raises (Option CorbaTypeTransporter) :=
  match get_type_info type_registry name do_check with
  | Except.error e => Except.error e
  | Except.ok none => Except.ok none
  | Except.ok (some ti) => get_corba_transport ti do_check

/-- The function `get_typelib_transport(name, do_check)`. -/
def get_typelib_transport_by_name (type_registry : TypeInfoRepository) (name : String)
    (do_check : Bool) : Raises (Option TypelibMarshallerBase) :=
  match get_type_info type_registry name do_check with
  | Except.error e => Except.error e
  | Except.ok none => Except.ok none
  | Except.ok (some ti) => get_typelib_transport ti do_check

/-! ## Reads and writes with the errors of the calls they make -/

/-- A C++ exception thrown by a call into RTT, the marshaller or typelib. The read
and the write have no `try` block, so it leaves the function at the call. -/
structure CppException where
  what : String
  deriving DecidableEq, Repr

/-- The calls of a read or a write that can raise an error: the read of the port,
the refresh of the typelib sample, the copy into the value of the caller, the copy
of the value into the handle, and the write of the port. -/
inductive DataStep where
  | portRead
  | refreshSample
  | copySample
  | setSample
  | portWrite
  deriving DecidableEq, Repr

/-- For each call, the exception it throws, if any. -/
abbrev Faults := DataStep → Option CppException

/-- No call throws. -/
def noFaults : Faults := fun _ => none

/-- How a function of the extension is left: with a returned value, with a Ruby
exception raised by `rb_raise`, or with a C++ exception thrown by a callee. -/
inductive Exit (α : Type) where
  | returned (a : α)
  | raised (e : RubyError)
  | thrown (e : CppException)
  deriving DecidableEq, Repr

/-- Whether a function was left with a C++ exception. -/
def Exit.isThrown {α : Type} (x : Exit α) : Bool :=
  match x with
  | Exit.thrown _ => true
  | _ => false

/-- What a read or a write leaves behind: how it was left, the content of the typelib
value of the caller, the sample passed to the port by a write, and the numbers of
marshalling handles the call created and released. -/
structure DataRun where
  exit : Exit RValue
  value : Sample
  written : Option Sample
  created : Nat
  released : Nat
  deriving DecidableEq, Repr

/-- The two marshalling strategies. -/
inductive MarshallingStrategy where
  | Direct
  | Structural
  deriving DecidableEq, Repr

/-- The strategy a run took: the structural one creates a marshalling handle, the
direct one creates none. -/
def DataRun.strategy (r : DataRun) : MarshallingStrategy :=
  if r.created = 0 then MarshallingStrategy.Direct else MarshallingStrategy.Structural

/-- The function `do_output_reader_read`, with the errors its callees may throw. -/
def do_output_reader_read_with_faults (faults : Faults)
    (type_registry : TypeInfoRepository) (local_port : InputPortInterface)
    (type_name : String) (value : Sample) (copy_old_data : RValue) : DataRun :=
  match get_type_info_checked type_registry type_name with
  | Except.error e =>
    { exit := Exit.raised e, value := value, written := none, created := 0, released := 0 }
  | Except.ok ti =>
    match get_typelib_transport ti false with
    | Except.error e =>
      { exit := Exit.raised e, value := value, written := none, created := 0,
        released := 0 }
    | Except.ok typelib_transport =>
      -- the test `!typelib_transport || typelib_transport->isPlainTypelibType()`
      match typelib_transport.filter (fun m => !m.isPlainTypelibType) with
      | none =>
        match faults DataStep.portRead with
        | some e =>
          { exit := Exit.thrown e, value := value, written := none, created := 0,
            released := 0 }
        | none =>
          let (status, ds) := local_port.read_default value
          match status with
          | FlowStatus.NoData =>
            { exit := Exit.returned RValue.rfalse, value := ds, written := none,
              created := 0, released := 0 }
          | FlowStatus.OldData =>
            { exit := Exit.returned (RValue.fixnum 0), value := ds, written := none,
              created := 0, released := 0 }
          | FlowStatus.NewData =>
            { exit := Exit.returned (RValue.fixnum 1), value := ds, written := none,
              created := 0, released := 0 }
      | some m =>
        -- `createHandle`
        let handle := m.createHandle
        let handle := m.setTypelibSample handle value false
        match faults DataStep.portRead with
        | some e =>
          { exit := Exit.thrown e, value := value, written := none, created := 1,
            released := 0 }
        | none =>
          let (did_read, ds) := local_port.read handle.orocos_sample (RTEST copy_old_data)
          let handle := { handle with orocos_sample := ds }
          let refreshed : Except CppException Sample :=
            if did_read = FlowStatus.NewData ∨
                (did_read = FlowStatus.OldData ∧ RTEST copy_old_data = true) then
              match faults DataStep.refreshSample with
              | some e => Except.error e
              | none =>
                match faults DataStep.copySample with
                | some e => Except.error e
                | none => Except.ok (m.refreshTypelibSample handle).typelib_sample
            else Except.ok value
          match refreshed with
          | Except.error e =>
            { exit := Exit.thrown e, value := value, written := none, created := 1,
              released := 0 }
          | Except.ok value =>
            -- `deleteHandle`
            match did_read with
            | FlowStatus.NoData =>
              { exit := Exit.returned RValue.rfalse, value := value, written := none,
                created := 1, released := 1 }
            | FlowStatus.OldData =>
              { exit := Exit.returned (RValue.fixnum 0), value := value, written := none,
                created := 1, released := 1 }
            | FlowStatus.NewData =>
              { exit := Exit.returned (RValue.fixnum 1), value := value, written := none,
                created := 1, released := 1 }

/-! ## Writing a sample to a local output port -/

/-- A local `RTT::base::OutputPortInterface` at the time of a write: what
`connected()` reports once the write has been issued, and whether the write
delivers the sample to a channel. -/
structure OutputPortInterface where
  connected : Bool
  delivered : Bool
  deriving DecidableEq, Repr

/-- The method `createSample`: a new handle that holds an orocos sample. -/
def TypelibMarshallerBase.createSample (m : TypelibMarshallerBase) : Handle :=
  { typelib_sample := [], orocos_sample := m.initial }

/-- The function `do_input_writer_write`, with the errors its callees may throw. -/
def do_input_writer_write (faults : Faults) (type_registry : TypeInfoRepository)
    (local_port : OutputPortInterface) (type_name : String) (value : Sample) : DataRun :=
  match get_type_info_checked type_registry type_name with
  | Except.error e =>
    { exit := Exit.raised e, value := value, written := none, created := 0, released := 0 }
  | Except.ok ti =>
    let transport : Option TypelibMarshallerBase :=
      if ti.hasProtocol TYPELIB_MARSHALLER_ID then
        asTypelibMarshaller (ti.getProtocol TYPELIB_MARSHALLER_ID)
      else none
    match transport with
    | none =>
      -- the data source is a reference to the memory of the value
      match faults DataStep.portWrite with
      | some e =>
        { exit := Exit.thrown e, value := value, written := none, created := 0,
          released := 0 }
      | none =>
        { exit := Exit.returned (rbBool local_port.connected), value := value,
          written := some value, created := 0, released := 0 }
    | some m =>
      -- `createSample`
      let handle := m.createSample
      match faults DataStep.setSample with
      | some e =>
        { exit := Exit.thrown e, value := value, written := none, created := 1,
          released := 0 }
      | none =>
        -- `setTypelibSample(handle, data)`: `refresh_orocos` has its default, true
        let handle := m.setTypelibSample handle value true
        match faults DataStep.portWrite with
        | some e =>
          { exit := Exit.thrown e, value := value, written := none, created := 1,
            released := 0 }
        | none =>
          -- `deleteHandle`
          { exit := Exit.returned (rbBool local_port.connected), value := value,
            written := some handle.orocos_sample, created := 1, released := 1 }

/-! ## Concrete inputs -/

/-- A world in which every connection call gives `answer`, every state change gives
`state`, and every local port reports `connected` afterwards. -/
def sampleWorld (answer : CorbaResult Bool) (state : CorbaResult Bool) (connected : Bool) :
    World :=
  { createConnection := fun _ _ _ _ _ => answer
    removeConnection := fun _ _ _ _ => CorbaResult.returned false
    disconnectPort := fun _ _ => CorbaResult.returned ()
    getPortType := fun _ _ => CorbaResult.returned CPortType.COutput
    getResultType := fun _ _ => CorbaResult.returned "void"
    stateChange := fun _ _ => state
    connected := fun _ => connected }

/-- A marshaller that keeps the bytes of a sample. -/
def sampleMarshaller : TypelibMarshallerBase :=
  { isPlainTypelibType := false, toTypelib := fun s => s, toOrocos := fun s => s,
    initial := [] }

/-- A type system with two types: `/int32_t` with the CORBA transport only, and
`/base/Time` with the CORBA transport and a typelib marshaller. -/
def sampleTypes : TypeInfoRepository := fun name =>
  if name = "/int32_t" then
    some { name := "/int32_t", protocols := [(ORO_CORBA_PROTOCOL_ID, Transporter.corba)] }
  else if name = "/base/Time" then
    some { name := "/base/Time",
           protocols := [(ORO_CORBA_PROTOCOL_ID, Transporter.corba),
                         (TYPELIB_MARSHALLER_ID, Transporter.typelib sampleMarshaller)] }
  else none

/-- A remote task and two of its ports. -/
def sampleTask : RTaskContext :=
  { task := { ior := "IOR:task" }, main_service := { ior := "IOR:service" },
    ports := { ior := "IOR:ports" } }

/-- An output port of the sample task. -/
def sampleOutput : Port := { task := sampleTask, task_name := "task", name := "out" }

/-- An input port of another task. -/
def sampleInput : Port :=
  { task := { task := { ior := "IOR:task2" }, main_service := { ior := "IOR:service2" },
              ports := { ior := "IOR:ports2" } },
    task_name := "task2", name := "in" }

/-- A CORBA access object with one local port registered already. -/
def sampleCorba : CorbaAccess :=
  { ports := [{ name := "earlier", direction := PortDirection.Input, type_name := "/int32_t" }]
    getDataFlowInterface := { ior := "IOR:local" }
    getLocalPortName := fun _ => "local" }

/-- A marshaller of a plain typelib type. -/
def plainMarshaller : TypelibMarshallerBase :=
  { isPlainTypelibType := true, toTypelib := fun s => s, toOrocos := fun s => s,
    initial := [] }

/-- A type `/double` whose typelib marshaller is a plain typelib type. -/
def plainType : TypeInfo :=
  { name := "/double",
    protocols := [(ORO_CORBA_PROTOCOL_ID, Transporter.corba),
                  (TYPELIB_MARSHALLER_ID, Transporter.typelib plainMarshaller)] }

/-- A type system with the single type `/double`. -/
def plainTypes : TypeInfoRepository := fun name =>
  if name = "/double" then some plainType else none

/-- A type whose handler under the id of the typelib marshaller is a transporter of
another class. -/
def foreignType : TypeInfo :=
  { name := "/foreign", protocols := [(TYPELIB_MARSHALLER_ID, Transporter.other)] }

/-- The port read throws. -/
def readFault : Faults := fun step =>
  match step with
  | DataStep.portRead => some { what := "read failed" }
  | _ => none

/-- The port write throws. -/
def writeFault : Faults := fun step =>
  match step with
  | DataStep.portWrite => some { what := "write failed" }
  | _ => none

/-- A world in which no port and no operation name resolves. -/
def missingWorld : World :=
  { createConnection := fun _ _ _ _ _ =>
      CorbaResult.raised CorbaException.CNoSuchPortException
    removeConnection := fun _ _ _ _ =>
      CorbaResult.raised CorbaException.CNoSuchPortException
    disconnectPort := fun _ _ => CorbaResult.raised CorbaException.CNoSuchPortException
    getPortType := fun _ _ => CorbaResult.raised CorbaException.CNoSuchPortException
    getResultType := fun _ _ => CorbaResult.raised CorbaException.CNoSuchNameException
    stateChange := fun _ _ => CorbaResult.returned false
    connected := fun _ => false }

/-- The local port that `sampleCorba` has registered. -/
def earlierPort : LocalPort :=
  { name := "earlier", direction := PortDirection.Input, type_name := "/int32_t" }

end Orocos

namespace Orocos

/-! ## Connection policies: what `policyFromHash` accepts -/

/-- The conversion `SYM2ID` succeeds on symbols only. -/
theorem SYM2ID_ok (v : RValue) (name : String) :
    SYM2ID v = Except.ok name ↔ v = sym name := by
  cases v <;> simp [SYM2ID, sym]

/-- The conversion `NUM2INT` succeeds on integers in the range of `int` only. -/
theorem NUM2INT_ok (v : RValue) (n : Int) :
    NUM2INT v = Except.ok n ↔ v = RValue.fixnum n ∧ INT_MIN ≤ n ∧ n ≤ INT_MAX := by
  cases v <;> simp [NUM2INT]
  rename_i k
  by_cases h : INT_MIN ≤ k ∧ k ≤ INT_MAX
  · simp [h]; rintro rfl; exact h
  · simp [h]; rintro rfl; simpa using h

/-- The policy `policyFromHash` builds from valid fields. -/
theorem policyFromHash_ok_iff (options : RHash) (p : CConnPolicy) :
    policyFromHash options = Except.ok p ↔
      ((rb_hash_aref options (sym "type") = sym "data" ∧ p.type = CConnectionModel.CData) ∨
        (rb_hash_aref options (sym "type") = sym "buffer" ∧ p.type = CConnectionModel.CBuffer)) ∧
      NUM2INT (rb_hash_aref options (sym "transport")) = Except.ok p.transport ∧
      NUM2INT (rb_hash_aref options (sym "data_size")) = Except.ok p.data_size ∧
      p.init = RTEST (rb_hash_aref options (sym "init")) ∧
      p.pull = RTEST (rb_hash_aref options (sym "pull")) ∧
      NUM2INT (rb_hash_aref options (sym "size")) = Except.ok p.size ∧
      ((rb_hash_aref options (sym "lock") = sym "locked" ∧ p.lock_policy = CLockPolicy.CLocked) ∨
        (rb_hash_aref options (sym "lock") = sym "lock_free" ∧
          p.lock_policy = CLockPolicy.CLockFree)) := by
  unfold policyFromHash
  generalize rb_hash_aref options (sym "type") = vt
  generalize rb_hash_aref options (sym "transport") = vtr
  generalize rb_hash_aref options (sym "data_size") = vd
  generalize rb_hash_aref options (sym "init") = vi
  generalize rb_hash_aref options (sym "pull") = vp
  generalize rb_hash_aref options (sym "size") = vs
  generalize rb_hash_aref options (sym "lock") = vl
  rcases p with ⟨pt, pi, pl, pp, ps, ptr, pd⟩
  rcases ht : SYM2ID vt with e | tname
  · have : ∀ name, vt ≠ sym name := fun name h => by
      rw [(SYM2ID_ok vt name).2 h] at ht; cases ht
    simp [rb_intern, bind, Except.bind, this]
  rw [SYM2ID_ok] at ht; subst ht
  have hsym : ∀ a b : String, (sym a = sym b) ↔ a = b := fun a b => by simp [sym]
  rcases hl : SYM2ID vl with e | lname
  · have hl2 : ∀ name, vl ≠ sym name := fun name h => by
      rw [(SYM2ID_ok vl name).2 h] at hl; cases hl
    rcases NUM2INT vtr with e | ntr <;> rcases NUM2INT vd with e | nd <;>
      rcases NUM2INT vs with e | ns <;>
      by_cases h1 : tname = "data" <;> by_cases h2 : tname = "buffer" <;>
      simp [rb_intern, bind, Except.bind, pure, Except.pure, hsym, h1, h2, hl2]
  rw [SYM2ID_ok] at hl; subst hl
  rcases NUM2INT vtr with e | ntr <;> rcases NUM2INT vd with e | nd <;>
    rcases NUM2INT vs with e | ns <;>
    by_cases h1 : tname = "data" <;> by_cases h2 : tname = "buffer" <;>
    by_cases h3 : lname = "locked" <;> by_cases h4 : lname = "lock_free" <;>
    simp [rb_intern, bind, Except.bind, pure, Except.pure, hsym, h1, h2, h3, h4] <;>
    (constructor <;> rintro ⟨rfl, rfl, rfl, rfl, rfl, rfl, rfl⟩ <;> simp)


/-- A result is a raised exception when it is no value. -/
theorem Raises.failed_eq_true_iff {α : Type} (r : Raises α) :
    r.failed = true ↔ ∀ a, r ≠ Except.ok a := by
  cases r <;> simp [Raises.failed]

/-- A result is not a raised exception when it is a value. -/
theorem Raises.failed_eq_false_iff {α : Type} (r : Raises α) :
    r.failed = false ↔ ∃ a, r = Except.ok a := by
  cases r <;> simp [Raises.failed]

/-- A key that is absent from the hash reads as `nil`. -/
theorem rb_hash_aref_absent (options : RHash) (key : RValue)
    (h : options.lookup key = none) : rb_hash_aref options key = RValue.nil := by
  simp [rb_hash_aref, h]

/-- An exception of `SYM2ID` carries no text. -/
theorem SYM2ID_error_carries (v : RValue) (e : RubyError)
    (h : SYM2ID v = Except.error e) : e.carriesText = false := by
  cases v <;> simp [SYM2ID] at h <;> subst h <;> rfl

/-- An exception of `NUM2INT` carries no text. -/
theorem NUM2INT_error_carries (v : RValue) (e : RubyError)
    (h : NUM2INT v = Except.error e) : e.carriesText = false := by
  cases v <;> simp [NUM2INT] at h <;> try (subst h; rfl)
  split at h
  · cases h
  · injection h with h; subst h; rfl

/-- No exception of `policyFromHash` has a message formatted with a name: the
messages of its two `ArgumentError`s are formatted from an ID. -/
theorem policyFromHash_error_carries (options : RHash) (e : RubyError)
    (h : policyFromHash options = Except.error e) : e.carriesText = false := by
  unfold policyFromHash at h
  rcases h1 : SYM2ID (rb_hash_aref options (sym "type")) with e1 | tname
  · rw [h1] at h; simp [bind, Except.bind] at h; subst h
    exact SYM2ID_error_carries _ _ h1
  rcases h2 : NUM2INT (rb_hash_aref options (sym "transport")) with e1 | ntr
  · rw [h1, h2] at h
    by_cases a : tname = "data" <;> by_cases b : tname = "buffer" <;>
      simp [rb_intern, bind, Except.bind, a, b] at h <;> subst h <;>
      first | exact NUM2INT_error_carries _ _ h2 | rfl
  rcases h3 : NUM2INT (rb_hash_aref options (sym "data_size")) with e1 | nd
  · rw [h1, h2, h3] at h
    by_cases a : tname = "data" <;> by_cases b : tname = "buffer" <;>
      simp [rb_intern, bind, Except.bind, a, b] at h <;> subst h <;>
      first | exact NUM2INT_error_carries _ _ h3 | rfl
  rcases h4 : NUM2INT (rb_hash_aref options (sym "size")) with e1 | ns
  · rw [h1, h2, h3, h4] at h
    by_cases a : tname = "data" <;> by_cases b : tname = "buffer" <;>
      simp [rb_intern, bind, Except.bind, a, b] at h <;> subst h <;>
      first | exact NUM2INT_error_carries _ _ h4 | rfl
  rcases h5 : SYM2ID (rb_hash_aref options (sym "lock")) with e1 | lname
  · rw [h1, h2, h3, h4, h5] at h
    by_cases a : tname = "data" <;> by_cases b : tname = "buffer" <;>
      simp [rb_intern, bind, Except.bind, a, b] at h <;> subst h <;>
      first | exact SYM2ID_error_carries _ _ h5 | rfl
  rw [h1, h2, h3, h4, h5] at h
  by_cases a : tname = "data" <;> by_cases b : tname = "buffer" <;>
    by_cases c : lname = "locked" <;> by_cases d : lname = "lock_free" <;>
    simp [rb_intern, bind, Except.bind, pure, Except.pure, a, b, c, d] at h <;>
    subst h <;> rfl

/-- C1: `policyFromHash` raises whenever the value of `type` is neither `:data` nor
`:buffer` and whenever the value of `lock` is neither `:locked` nor `:lock_free`, and
a policy that is returned has the buffer kind and the lock policy the hash names: no
value is mapped to a default. A symbol outside the set is rejected with an
`ArgumentError`; the message of that exception is formatted from the ID that `SYM2ID`
gave, passed as the receiver of `inspect` or `to_s`, and never from the name of the
symbol. -/
theorem policyFromHash_closed_enumerations (options : RHash) :
    (rb_hash_aref options (sym "type") ≠ sym "data" →
      rb_hash_aref options (sym "type") ≠ sym "buffer" →
      (policyFromHash options).failed = true) ∧
    (rb_hash_aref options (sym "lock") ≠ sym "locked" →
      rb_hash_aref options (sym "lock") ≠ sym "lock_free" →
      (policyFromHash options).failed = true) ∧
    (∀ name, rb_hash_aref options (sym "type") = sym name →
      name ≠ "data" → name ≠ "buffer" →
      policyFromHash options =
        Except.error (RubyError.ArgError "invalid connection type %s"
          (MessageArg.ofID (rb_intern name)))) ∧
    (∀ name, rb_hash_aref options (sym "lock") = sym name →
      name ≠ "locked" → name ≠ "lock_free" →
      (rb_hash_aref options (sym "type") = sym "data" ∨
        rb_hash_aref options (sym "type") = sym "buffer") →
      (NUM2INT (rb_hash_aref options (sym "transport"))).failed = false →
      (NUM2INT (rb_hash_aref options (sym "data_size"))).failed = false →
      (NUM2INT (rb_hash_aref options (sym "size"))).failed = false →
      policyFromHash options =
        Except.error (RubyError.ArgError "invalid locking type %s"
          (MessageArg.ofID (rb_intern name)))) ∧
    (∀ p, policyFromHash options = Except.ok p →
      ((rb_hash_aref options (sym "type") = sym "data" ∧ p.type = CConnectionModel.CData) ∨
        (rb_hash_aref options (sym "type") = sym "buffer" ∧
          p.type = CConnectionModel.CBuffer)) ∧
      ((rb_hash_aref options (sym "lock") = sym "locked" ∧
          p.lock_policy = CLockPolicy.CLocked) ∨
        (rb_hash_aref options (sym "lock") = sym "lock_free" ∧
          p.lock_policy = CLockPolicy.CLockFree))) ∧
    (∀ e, policyFromHash options = Except.error e → e.carriesText = false) := by
  refine ⟨?_, ?_, ?_, ?_, ?_, policyFromHash_error_carries options⟩
  · intro h1 h2
    rw [Raises.failed_eq_true_iff]
    intro p hp
    rcases ((policyFromHash_ok_iff options p).1 hp).1 with h | h
    · exact h1 h.1
    · exact h2 h.1
  · intro h1 h2
    rw [Raises.failed_eq_true_iff]
    intro p hp
    rcases ((policyFromHash_ok_iff options p).1 hp).2.2.2.2.2.2 with h | h
    · exact h1 h.1
    · exact h2 h.1
  · intro name h h1 h2
    simp only [policyFromHash, h]
    simp [rb_intern, sym, SYM2ID, bind, Except.bind, h1, h2]
  · intro name h h1 h2 ht htr hd hs
    rw [Raises.failed_eq_false_iff] at htr hd hs
    obtain ⟨ntr, htr⟩ := htr
    obtain ⟨nd, hd⟩ := hd
    obtain ⟨ns, hs⟩ := hs
    rcases ht with ht | ht <;>
      simp only [policyFromHash, h, ht, htr, hd, hs] <;>
      simp [rb_intern, sym, SYM2ID, bind, Except.bind, h1, h2]
  · intro p hp
    have h := (policyFromHash_ok_iff options p).1 hp
    exact ⟨h.1, h.2.2.2.2.2.2⟩

/-- C1, at two hashes: one whose `type` is `:foo` and one whose `lock` is `:bar`. -/
theorem policyFromHash_closed_enumerations_witness :
    (policyFromHash (samplePolicy "foo" 1 "locked")).failed = true ∧
    (policyFromHash (samplePolicy "data" 1 "bar")).failed = true ∧
    policyFromHash (samplePolicy "data" 1 "bar") =
      Except.error (RubyError.ArgError "invalid locking type %s"
        (MessageArg.ofID (rb_intern "bar"))) :=
  ⟨(policyFromHash_closed_enumerations (samplePolicy "foo" 1 "locked")).1
      (by decide)
      (by decide),
   (policyFromHash_closed_enumerations (samplePolicy "data" 1 "bar")).2.1
      (by decide)
      (by decide),
   (policyFromHash_closed_enumerations (samplePolicy "data" 1 "bar")).2.2.2.1 "bar"
      rfl (by decide) (by decide) (Or.inl rfl) rfl rfl rfl⟩

/-- The keys of a policy hash that `policyFromHash` converts with a check hold
valid values: `type` and `lock` a symbol of their enumeration, `transport`,
`data_size` and `size` an integer that fits an `int`. -/
theorem policyFromHash_accepts (options : RHash)
    (ht : rb_hash_aref options (sym "type") = sym "data" ∨
      rb_hash_aref options (sym "type") = sym "buffer")
    (htr : (NUM2INT (rb_hash_aref options (sym "transport"))).failed = false)
    (hd : (NUM2INT (rb_hash_aref options (sym "data_size"))).failed = false)
    (hs : (NUM2INT (rb_hash_aref options (sym "size"))).failed = false)
    (hl : rb_hash_aref options (sym "lock") = sym "locked" ∨
      rb_hash_aref options (sym "lock") = sym "lock_free") :
    ∃ p, policyFromHash options = Except.ok p ∧
      p.init = RTEST (rb_hash_aref options (sym "init")) ∧
      p.pull = RTEST (rb_hash_aref options (sym "pull")) ∧
      NUM2INT (rb_hash_aref options (sym "size")) = Except.ok p.size ∧
      (rb_hash_aref options (sym "type") = sym "buffer" → p.type = CConnectionModel.CBuffer) ∧
      (rb_hash_aref options (sym "type") = sym "data" → p.type = CConnectionModel.CData) := by
  rw [Raises.failed_eq_false_iff] at htr hd hs
  obtain ⟨ntr, htr⟩ := htr
  obtain ⟨nd, hd⟩ := hd
  obtain ⟨ns, hs⟩ := hs
  have hne : sym "data" ≠ sym "buffer" := by decide
  refine ⟨{ type := if rb_hash_aref options (sym "type") = sym "data" then
              CConnectionModel.CData else CConnectionModel.CBuffer,
            init := RTEST (rb_hash_aref options (sym "init")),
            lock_policy := if rb_hash_aref options (sym "lock") = sym "locked" then
              CLockPolicy.CLocked else CLockPolicy.CLockFree,
            pull := RTEST (rb_hash_aref options (sym "pull")),
            size := ns, transport := ntr, data_size := nd }, ?_, rfl, rfl, hs, ?_, ?_⟩
  · rw [policyFromHash_ok_iff]
    refine ⟨?_, htr, hd, rfl, rfl, hs, ?_⟩
    · rcases ht with ht | ht
      · exact Or.inl ⟨ht, by simp [ht]⟩
      · exact Or.inr ⟨ht, by simp [ht, hne.symm]⟩
    · rcases hl with hl | hl
      · exact Or.inl ⟨hl, by simp [hl]⟩
      · refine Or.inr ⟨hl, ?_⟩
        have : sym "lock_free" ≠ sym "locked" := by decide
        simp [hl, this]
  · intro h; simp [h, hne.symm]
  · intro h; simp [h]

/-- The counterexample of C2: the hash `policyWithoutInit` lacks the key `init`, and
`policyFromHash` accepts it with `init` false. -/
theorem policyFromHash_without_init :
    List.lookup (sym "init") policyWithoutInit = none ∧
    policyFromHash policyWithoutInit =
      Except.ok { type := CConnectionModel.CData, init := false,
                  lock_policy := CLockPolicy.CLocked, pull := true, size := 1,
                  transport := 0, data_size := 0 } ∧
    (policyFromHash policyWithoutInit).failed = false :=
  ⟨by decide, rfl, rfl⟩

/-- C2 as amended: a hash that lacks `type`, `transport`, `data_size`, `size` or
`lock` makes `policyFromHash` raise; a hash that lacks `init` (or `pull`) and whose
checked keys are valid is accepted, and the policy has `init` (or `pull`) false. -/
theorem policyFromHash_missing_key (options : RHash) :
    (∀ k, k ∈ ["type", "transport", "data_size", "size", "lock"] →
      options.lookup (sym k) = none → (policyFromHash options).failed = true) ∧
    (∀ k, k ∈ ["init", "pull"] → options.lookup (sym k) = none →
      (rb_hash_aref options (sym "type") = sym "data" ∨
        rb_hash_aref options (sym "type") = sym "buffer") →
      (NUM2INT (rb_hash_aref options (sym "transport"))).failed = false →
      (NUM2INT (rb_hash_aref options (sym "data_size"))).failed = false →
      (NUM2INT (rb_hash_aref options (sym "size"))).failed = false →
      (rb_hash_aref options (sym "lock") = sym "locked" ∨
        rb_hash_aref options (sym "lock") = sym "lock_free") →
      ∃ p, policyFromHash options = Except.ok p ∧
        (k = "init" → p.init = false) ∧ (k = "pull" → p.pull = false)) := by
  constructor
  · intro k hk habs
    have hnil := rb_hash_aref_absent options (sym k) habs
    rw [Raises.failed_eq_true_iff]
    intro p hp
    have h := (policyFromHash_ok_iff options p).1 hp
    simp only [List.mem_cons, List.mem_singleton, List.not_mem_nil, or_false] at hk
    rcases hk with rfl | rfl | rfl | rfl | rfl
    · rcases h.1 with h1 | h1 <;> rw [hnil] at h1 <;> exact absurd h1.1 (by decide)
    · have := h.2.1; rw [hnil] at this; simp [NUM2INT] at this
    · have := h.2.2.1; rw [hnil] at this; simp [NUM2INT] at this
    · have := h.2.2.2.2.2.1; rw [hnil] at this; simp [NUM2INT] at this
    · rcases h.2.2.2.2.2.2 with h1 | h1 <;> rw [hnil] at h1 <;> exact absurd h1.1 (by decide)
  · intro k hk habs ht htr hd hs hl
    have hnil := rb_hash_aref_absent options (sym k) habs
    obtain ⟨p, hp, hinit, hpull, -⟩ := policyFromHash_accepts options ht htr hd hs hl
    refine ⟨p, hp, ?_, ?_⟩
    · rintro rfl; rw [hinit, hnil]; rfl
    · rintro rfl; rw [hpull, hnil]; rfl

/-- C2 as amended, at a hash without `size` and at a hash without `init`. -/
theorem policyFromHash_missing_key_witness :
    (policyFromHash policyWithoutSize).failed = true ∧
    ∃ p, policyFromHash policyWithoutInit = Except.ok p ∧ p.init = false :=
  ⟨(policyFromHash_missing_key policyWithoutSize).1 "size" (by decide) (by decide),
   match (policyFromHash_missing_key policyWithoutInit).2 "init" (by decide) (by decide)
     (Or.inl (by decide)) rfl rfl rfl (Or.inl (by decide)) with
   | ⟨p, hp, hinit, _⟩ => ⟨p, hp, hinit rfl⟩⟩

/-- A policy hash of kind buffer whose size is zero is accepted: the counterexample
of C3. -/
theorem policyFromHash_buffer_size_zero :
    policyFromHash (samplePolicy "buffer" 0 "locked") =
      Except.ok { type := CConnectionModel.CBuffer, init := false,
                  lock_policy := CLockPolicy.CLocked, pull := true, size := 0,
                  transport := 0, data_size := 0 } ∧
    (policyFromHash (samplePolicy "buffer" 0 "locked")).failed = false :=
  ⟨rfl, rfl⟩

/-- C3 as amended: for a hash with `type` buffer, the other checked keys valid and
`size` any integer that fits an `int`, below one included, `policyFromHash` returns a
policy of kind buffer whose capacity is that size, unchanged; it makes no check of
the capacity. -/
theorem policyFromHash_buffer_keeps_size (options : RHash) (n : Int)
    (ht : rb_hash_aref options (sym "type") = sym "buffer")
    (hsize : rb_hash_aref options (sym "size") = RValue.fixnum n)
    (hn : INT_MIN ≤ n ∧ n ≤ INT_MAX)
    (htr : (NUM2INT (rb_hash_aref options (sym "transport"))).failed = false)
    (hd : (NUM2INT (rb_hash_aref options (sym "data_size"))).failed = false)
    (hl : rb_hash_aref options (sym "lock") = sym "locked" ∨
      rb_hash_aref options (sym "lock") = sym "lock_free") :
    ∃ p, policyFromHash options = Except.ok p ∧
      p.type = CConnectionModel.CBuffer ∧ p.size = n := by
  have hs : NUM2INT (rb_hash_aref options (sym "size")) = Except.ok n := by
    rw [NUM2INT_ok]; exact ⟨hsize, hn⟩
  obtain ⟨p, hp, -, -, hps, hbuf, -⟩ :=
    policyFromHash_accepts options (Or.inr ht) htr hd (by rw [hs]; rfl) hl
  refine ⟨p, hp, hbuf ht, ?_⟩
  rw [hs] at hps
  injection hps with h
  exact h.symm

/-- C3 as amended, at a buffer policy of size `-3`. -/
theorem policyFromHash_buffer_keeps_size_witness :
    ∃ p, policyFromHash (samplePolicy "buffer" (-3) "lock_free") = Except.ok p ∧
      p.type = CConnectionModel.CBuffer ∧ p.size = -3 :=
  policyFromHash_buffer_keeps_size (samplePolicy "buffer" (-3) "lock_free") (-3)
    (by decide) (by decide) (by decide) rfl rfl (Or.inr (by decide))

/-! ## Local readers and writers: failure and the registry -/

/-- Registering a port that is not registered and deregistering it again leaves the
registry as it was. -/
theorem removePort_addPort_fresh (corba : CorbaAccess) (p : LocalPort)
    (h : p ∉ corba.ports) : ((corba.addPort p).removePort p).ports = corba.ports := by
  simp only [CorbaAccess.addPort, CorbaAccess.removePort, if_neg h]
  rw [List.filter_cons]
  simp only [ne_eq, not_true_eq_false, decide_False, Bool.false_eq_true, if_false]
  rw [List.filter_eq_self]
  intro q hq
  simp only [decide_eq_true_eq]
  rintro rfl
  exact h hq

/-- C4, at the failing input: the remote `createConnection` returns true and the local
port reports `connected() = false`. The reader returns the proxy, where the writer
raises `ConnectionFailed` on the same answers. -/
theorem do_output_port_reader_ignores_connected :
    (do_output_port_reader
        (sampleWorld (CorbaResult.returned true) (CorbaResult.returned true) false)
        sampleTypes sampleCorba sampleOutput "/int32_t"
        (samplePolicy "data" 1 "locked")).result =
      Except.ok { name := "local", direction := PortDirection.Input,
                  type_name := "/int32_t" } ∧
    (do_input_port_writer
        (sampleWorld (CorbaResult.returned true) (CorbaResult.returned true) false)
        sampleTypes sampleCorba sampleInput "/int32_t"
        (samplePolicy "data" 1 "locked")).result =
      Except.error (RubyError.ConnectionFailed
        "failed to connect the writer object to its remote port") :=
  ⟨rfl, rfl⟩

/-- An exception of `SYM2ID` is no `ConnectionFailed`. -/
theorem SYM2ID_error (v : RValue) (e : RubyError) (h : SYM2ID v = Except.error e) :
    e.isConnectionFailed = false := by
  cases v <;> simp [SYM2ID] at h <;> subst h <;> rfl

/-- An exception of `NUM2INT` is no `ConnectionFailed`. -/
theorem NUM2INT_error (v : RValue) (e : RubyError) (h : NUM2INT v = Except.error e) :
    e.isConnectionFailed = false := by
  cases v <;> simp [NUM2INT] at h <;> try (subst h; rfl)
  split at h
  · cases h
  · injection h with h; subst h; rfl

/-- An exception of `policyFromHash` is no `ConnectionFailed`. -/
theorem policyFromHash_error (options : RHash) (e : RubyError)
    (h : policyFromHash options = Except.error e) : e.isConnectionFailed = false := by
  unfold policyFromHash at h
  rcases h1 : SYM2ID (rb_hash_aref options (sym "type")) with e1 | tname
  · rw [h1] at h; simp [bind, Except.bind] at h; subst h; exact SYM2ID_error _ _ h1
  rcases h2 : NUM2INT (rb_hash_aref options (sym "transport")) with e1 | ntr
  · rw [h1, h2] at h
    by_cases a : tname = "data" <;> by_cases b : tname = "buffer" <;>
      simp [rb_intern, bind, Except.bind, a, b] at h <;> subst h <;>
      first | exact NUM2INT_error _ _ h2 | rfl
  rcases h3 : NUM2INT (rb_hash_aref options (sym "data_size")) with e1 | nd
  · rw [h1, h2, h3] at h
    by_cases a : tname = "data" <;> by_cases b : tname = "buffer" <;>
      simp [rb_intern, bind, Except.bind, a, b] at h <;> subst h <;>
      first | exact NUM2INT_error _ _ h3 | rfl
  rcases h4 : NUM2INT (rb_hash_aref options (sym "size")) with e1 | ns
  · rw [h1, h2, h3, h4] at h
    by_cases a : tname = "data" <;> by_cases b : tname = "buffer" <;>
      simp [rb_intern, bind, Except.bind, a, b] at h <;> subst h <;>
      first | exact NUM2INT_error _ _ h4 | rfl
  rcases h5 : SYM2ID (rb_hash_aref options (sym "lock")) with e1 | lname
  · rw [h1, h2, h3, h4, h5] at h
    by_cases a : tname = "data" <;> by_cases b : tname = "buffer" <;>
      simp [rb_intern, bind, Except.bind, a, b] at h <;> subst h <;>
      first | exact SYM2ID_error _ _ h5 | rfl
  rw [h1, h2, h3, h4, h5] at h
  by_cases a : tname = "data" <;> by_cases b : tname = "buffer" <;>
    by_cases c : lname = "locked" <;> by_cases d : lname = "lock_free" <;>
    simp [rb_intern, bind, Except.bind, pure, Except.pure, a, b, c, d] at h <;> subst h <;> rfl

/-- C5: when `do_output_port_reader` or `do_input_port_writer` raises
`ConnectionFailed`, the local port it registered has been deregistered: with no port
registered under the local name before the call, the registry after the failed call
is the registry before it. -/
theorem connection_failed_deregisters (w : World) (type_registry : TypeInfoRepository)
    (corba : CorbaAccess) (port : Port) (type_name : String) (policy : RHash)
    (hfresh : ∀ p ∈ corba.ports, p.name ≠ corba.getLocalPortName port) :
    (∀ msg, (do_output_port_reader w type_registry corba port type_name policy).result =
        Except.error (RubyError.ConnectionFailed msg) →
      (do_output_port_reader w type_registry corba port type_name policy).corba.ports =
        corba.ports) ∧
    (∀ msg, (do_input_port_writer w type_registry corba port type_name policy).result =
        Except.error (RubyError.ConnectionFailed msg) →
      (do_input_port_writer w type_registry corba port type_name policy).corba.ports =
        corba.ports) := by
  constructor
  · intro msg
    unfold do_output_port_reader
    simp only [getPortReference]
    rcases get_type_info_checked type_registry type_name with e | ti
    · simp
    · have hnew : ti.inputPort (corba.getLocalPortName port) ∉ corba.ports :=
        fun hmem => hfresh _ hmem rfl
      rcases hp : policyFromHash policy with e | corba_policy
      · intro h
        have := policyFromHash_error policy e hp
        simp only [Except.error.injEq] at h
        rw [h] at this
        cases this
      · simp only []
        rcases w.createConnection port.task.ports port.name
            (corba.addPort (ti.inputPort (corba.getLocalPortName port))).getDataFlowInterface
            (corba.getLocalPortName port) corba_policy with result | e
        · cases result
          · intro _
            exact removePort_addPort_fresh corba _ hnew
          · simp
        · simp [CORBA_EXCEPTION_HANDLERS]
  · intro msg
    unfold do_input_port_writer
    simp only [getPortReference]
    rcases get_type_info_checked type_registry type_name with e | ti
    · simp
    · have hnew : ti.outputPort (corba.getLocalPortName port) ∉ corba.ports :=
        fun hmem => hfresh _ hmem rfl
      rcases hp : policyFromHash policy with e | corba_policy
      · intro h
        have := policyFromHash_error policy e hp
        simp only [Except.error.injEq] at h
        rw [h] at this
        cases this
      · simp only []
        rcases w.createConnection
            (corba.addPort (ti.outputPort (corba.getLocalPortName port))).getDataFlowInterface
            (corba.getLocalPortName port) port.task.ports port.name corba_policy with result | e
        · by_cases hc : (!w.connected (corba.getLocalPortName port) || !result) = true
          · simp only [hc, if_true]
            intro _
            exact removePort_addPort_fresh corba _ hnew
          · simp [hc]
        · simp [CORBA_EXCEPTION_HANDLERS]


/-- C5, at a remote side that refuses the connection, with one other port registered. -/
theorem connection_failed_deregisters_witness :
    (∀ p ∈ sampleCorba.ports, p.name ≠ sampleCorba.getLocalPortName sampleOutput) ∧
    (do_output_port_reader
        (sampleWorld (CorbaResult.returned false) (CorbaResult.returned true) true)
        sampleTypes sampleCorba sampleOutput "/int32_t"
        (samplePolicy "data" 1 "locked")).result =
      Except.error (RubyError.ConnectionFailed "failed to connect specified ports") ∧
    (do_output_port_reader
        (sampleWorld (CorbaResult.returned false) (CorbaResult.returned true) true)
        sampleTypes sampleCorba sampleOutput "/int32_t"
        (samplePolicy "data" 1 "locked")).corba.ports = sampleCorba.ports ∧
    (do_input_port_writer
        (sampleWorld (CorbaResult.returned false) (CorbaResult.returned true) true)
        sampleTypes sampleCorba sampleOutput "/int32_t"
        (samplePolicy "data" 1 "locked")).corba.ports = sampleCorba.ports :=
  ⟨by decide, rfl,
   (connection_failed_deregisters _ sampleTypes sampleCorba sampleOutput "/int32_t"
      (samplePolicy "data" 1 "locked") (by decide)).1 _ rfl,
   (connection_failed_deregisters _ sampleTypes sampleCorba sampleOutput "/int32_t"
      (samplePolicy "data" 1 "locked") (by decide)).2 _ rfl⟩

/-- C6, at the failing inputs: a policy hash whose `type` is `:foo`, and a remote
side that raises `COMM_FAILURE`. The reader and the writer raise, and the local port
they registered before parsing the policy is still in the registry. -/
theorem reader_writer_leak_registration :
    (do_output_port_reader
        (sampleWorld (CorbaResult.returned true) (CorbaResult.returned true) true)
        sampleTypes sampleCorba sampleOutput "/int32_t"
        (samplePolicy "foo" 1 "locked")).result =
      Except.error (RubyError.ArgError "invalid connection type %s"
        (MessageArg.ofID (rb_intern "foo"))) ∧
    (do_output_port_reader
        (sampleWorld (CorbaResult.returned true) (CorbaResult.returned true) true)
        sampleTypes sampleCorba sampleOutput "/int32_t"
        (samplePolicy "foo" 1 "locked")).corba.ports =
      { name := "local", direction := PortDirection.Input, type_name := "/int32_t" } ::
        sampleCorba.ports ∧
    (do_input_port_writer
        (sampleWorld (CorbaResult.returned true) (CorbaResult.returned true) true)
        sampleTypes sampleCorba sampleInput "/int32_t"
        (samplePolicy "foo" 1 "locked")).corba.ports =
      { name := "local", direction := PortDirection.Output, type_name := "/int32_t" } ::
        sampleCorba.ports ∧
    (do_output_port_reader
        (sampleWorld (CorbaResult.raised CorbaException.COMM_FAILURE)
          (CorbaResult.returned true) true)
        sampleTypes sampleCorba sampleOutput "/int32_t"
        (samplePolicy "data" 1 "locked")).result =
      Except.error (RubyError.CORBA CorbaException.COMM_FAILURE) ∧
    (do_output_port_reader
        (sampleWorld (CorbaResult.raised CorbaException.COMM_FAILURE)
          (CorbaResult.returned true) true)
        sampleTypes sampleCorba sampleOutput "/int32_t"
        (samplePolicy "data" 1 "locked")).corba.ports =
      { name := "local", direction := PortDirection.Input, type_name := "/int32_t" } ::
        sampleCorba.ports ∧
    (do_input_port_writer
        (sampleWorld (CorbaResult.raised CorbaException.COMM_FAILURE)
          (CorbaResult.returned true) true)
        sampleTypes sampleCorba sampleInput "/int32_t"
        (samplePolicy "data" 1 "locked")).corba.ports =
      { name := "local", direction := PortDirection.Output, type_name := "/int32_t" } ::
        sampleCorba.ports :=
  ⟨rfl, rfl, rfl, rfl, rfl, rfl⟩

/-! ## Connecting two remote ports -/

/-- C7: with a valid policy `do_port_connect_to` issues one remote call,
`createConnection` on the data flow interface of the output port with the output
port name, the data flow interface of the input port, the input port name and the
parsed policy; it returns nil exactly when the call returns true, raises
`ConnectionFailed` exactly when it returns false and `NotFound` exactly when it
raises `CNoSuchPortException`. With an invalid policy it raises the exception of
`policyFromHash` and issues no remote call. -/
theorem do_port_connect_to_spec (w : World) (routput_port rinput_port : Port)
    (options : RHash) :
    (∀ policy, policyFromHash options = Except.ok policy →
      (do_port_connect_to w routput_port rinput_port options).1 =
        [RemoteCall.createConnection routput_port.task.ports routput_port.name
          rinput_port.task.ports rinput_port.name policy] ∧
      ((do_port_connect_to w routput_port rinput_port options).2 = Except.ok RValue.nil ↔
        w.createConnection routput_port.task.ports routput_port.name
          rinput_port.task.ports rinput_port.name policy = CorbaResult.returned true) ∧
      ((∃ a, (do_port_connect_to w routput_port rinput_port options).2 = Except.ok a) ↔
        w.createConnection routput_port.task.ports routput_port.name
          rinput_port.task.ports rinput_port.name policy = CorbaResult.returned true) ∧
      ((do_port_connect_to w routput_port rinput_port options).2 =
          Except.error (RubyError.ConnectionFailed "failed to connect ports") ↔
        w.createConnection routput_port.task.ports routput_port.name
          rinput_port.task.ports rinput_port.name policy = CorbaResult.returned false) ∧
      ((∃ msg, (do_port_connect_to w routput_port rinput_port options).2 =
          Except.error (RubyError.ConnectionFailed msg)) ↔
        w.createConnection routput_port.task.ports routput_port.name
          rinput_port.task.ports rinput_port.name policy = CorbaResult.returned false) ∧
      ((do_port_connect_to w routput_port rinput_port options).2 =
          Except.error (RubyError.NotFound "no such port") ↔
        w.createConnection routput_port.task.ports routput_port.name
          rinput_port.task.ports rinput_port.name policy =
            CorbaResult.raised CorbaException.CNoSuchPortException) ∧
      ((∃ msg, (do_port_connect_to w routput_port rinput_port options).2 =
          Except.error (RubyError.NotFound msg)) ↔
        w.createConnection routput_port.task.ports routput_port.name
          rinput_port.task.ports rinput_port.name policy =
            CorbaResult.raised CorbaException.CNoSuchPortException)) ∧
    (∀ e, policyFromHash options = Except.error e →
      do_port_connect_to w routput_port rinput_port options = ([], Except.error e)) := by
  constructor
  · intro policy hp
    unfold do_port_connect_to
    simp only [getPortReference, hp]
    rcases w.createConnection routput_port.task.ports routput_port.name
        rinput_port.task.ports rinput_port.name policy with result | e
    · cases result <;> simp
    · cases e <;> simp [CORBA_EXCEPTION_HANDLERS]
  · intro e hp
    unfold do_port_connect_to
    simp only [getPortReference, hp]

/-- C7, at a connection that is refused and at a policy hash whose `lock` is `:bar`. -/
theorem do_port_connect_to_spec_witness :
    (do_port_connect_to
        (sampleWorld (CorbaResult.returned false) (CorbaResult.returned true) true)
        sampleOutput sampleInput (samplePolicy "buffer" 10 "lock_free")).1 =
      [RemoteCall.createConnection { ior := "IOR:ports" } "out" { ior := "IOR:ports2" } "in"
        { type := CConnectionModel.CBuffer, init := false,
          lock_policy := CLockPolicy.CLockFree, pull := true, size := 10,
          transport := 0, data_size := 0 }] ∧
    do_port_connect_to
        (sampleWorld (CorbaResult.returned true) (CorbaResult.returned true) true)
        sampleOutput sampleInput (samplePolicy "buffer" 10 "bar") =
      ([], Except.error (RubyError.ArgError "invalid locking type %s"
        (MessageArg.ofID (rb_intern "bar")))) :=
  ⟨((do_port_connect_to_spec _ sampleOutput sampleInput
      (samplePolicy "buffer" 10 "lock_free")).1 _ rfl).1,
   (do_port_connect_to_spec _ sampleOutput sampleInput
      (samplePolicy "buffer" 10 "bar")).2 _ rfl⟩

/-! ## Lifecycle transitions -/

/-- C8: each of the five lifecycle functions returns nil exactly when the remote
method returns true; when the method returns false it raises
`StateTransitionFailed` with the message of that transition, and it raises
`StateTransitionFailed` in no other case; the five messages are pairwise distinct. -/
theorem lifecycle_checked (w : World) (task : RTaskContext) (m : CTaskContextMethod) :
    (lifecycle m w task = Except.ok RValue.nil ↔
      w.stateChange task.task m = CorbaResult.returned true) ∧
    ((∃ a, lifecycle m w task = Except.ok a) ↔
      w.stateChange task.task m = CorbaResult.returned true) ∧
    (lifecycle m w task =
        Except.error (RubyError.StateTransitionFailed (transitionMessage m)) ↔
      w.stateChange task.task m = CorbaResult.returned false) ∧
    (∀ msg, lifecycle m w task = Except.error (RubyError.StateTransitionFailed msg) →
      msg = transitionMessage m) ∧
    (∀ m2, transitionMessage m = transitionMessage m2 → m = m2) := by
  refine ⟨?_, ?_, ?_, ?_, ?_⟩
  · cases m <;>
      simp only [lifecycle, task_context_configure, task_context_start, task_context_stop,
        task_context_cleanup, task_context_reset_exception, call_checked_state_change] <;>
      split <;> simp_all [CORBA_EXCEPTION_HANDLERS]
  · cases m <;>
      simp only [lifecycle, task_context_configure, task_context_start, task_context_stop,
        task_context_cleanup, task_context_reset_exception, call_checked_state_change] <;>
      split <;> simp_all [CORBA_EXCEPTION_HANDLERS]
  · cases m <;>
      simp only [lifecycle, task_context_configure, task_context_start, task_context_stop,
        task_context_cleanup, task_context_reset_exception, call_checked_state_change,
        transitionMessage] <;>
      split <;> simp_all [CORBA_EXCEPTION_HANDLERS]
  · intro msg
    cases m <;>
      simp only [lifecycle, task_context_configure, task_context_start, task_context_stop,
        task_context_cleanup, task_context_reset_exception, call_checked_state_change,
        transitionMessage] <;>
      split <;> simp_all [CORBA_EXCEPTION_HANDLERS]
  · intro m2
    cases m <;> cases m2 <;> simp [transitionMessage]

/-- C8, at a remote task that refuses to start. -/
theorem lifecycle_checked_witness :
    task_context_start
        (sampleWorld (CorbaResult.returned true) (CorbaResult.returned false) true)
        sampleTask =
      Except.error (RubyError.StateTransitionFailed "failed to start") :=
  (lifecycle_checked
    (sampleWorld (CorbaResult.returned true) (CorbaResult.returned false) true)
    sampleTask CTaskContextMethod.start).2.2.1.2 rfl

/-! ## Reading a sample -/

/-- C9, at the failing input: a type without typelib marshaller (the direct
strategy), a port that reports `OldData` and holds the sample `[7]`, a value `[1]`
and `copy_old_data = false`. The value of the caller is overwritten with the old
sample; with the same port and flag, the marshaller strategy leaves the value as
it was. -/
theorem direct_read_ignores_copy_old_data :
    (do_output_reader_read sampleTypes { status := FlowStatus.OldData, sample := [7] }
        "/int32_t" [1] RValue.rfalse 0).value = [7] ∧
    (do_output_reader_read sampleTypes { status := FlowStatus.OldData, sample := [7] }
        "/int32_t" [1] RValue.rfalse 0).result = Except.ok (RValue.fixnum 0) ∧
    (do_output_reader_read sampleTypes { status := FlowStatus.OldData, sample := [7] }
        "/base/Time" [1] RValue.rfalse 0).value = [1] :=
  ⟨rfl, rfl, rfl⟩

/-- The lookup `get_type_info_checked` gives the registered type. -/
theorem get_type_info_checked_registered (type_registry : TypeInfoRepository)
    (type_name : String) (ti : TypeInfo) (h : type_registry type_name = some ti) :
    get_type_info_checked type_registry type_name = Except.ok ti := by
  simp [get_type_info_checked, get_type_info, h]

/-- The lookup `get_typelib_transport` without check never raises. -/
theorem get_typelib_transport_unchecked (ti : TypeInfo) :
    ∃ t, get_typelib_transport ti false = Except.ok t := by
  unfold get_typelib_transport
  split
  · exact ⟨_, rfl⟩
  · exact ⟨none, by simp⟩

/-- In the marshaller strategy the value of the caller is refreshed on `NewData`, on
`OldData` exactly when `copy_old_data` is true, and never on `NoData`. -/
theorem marshalled_read_value (type_registry : TypeInfoRepository)
    (local_port : InputPortInterface) (type_name : String) (value : Sample)
    (copy_old_data : RValue) (live_handles : Nat) (ti : TypeInfo)
    (m : TypelibMarshallerBase) (h : type_registry type_name = some ti)
    (hm : get_typelib_transport ti false = Except.ok (some m))
    (hp : m.isPlainTypelibType = false) :
    (do_output_reader_read type_registry local_port type_name value copy_old_data
        live_handles).value =
      match local_port.status with
      | FlowStatus.NoData => value
      | FlowStatus.OldData =>
        if RTEST copy_old_data then m.toTypelib local_port.sample else value
      | FlowStatus.NewData => m.toTypelib local_port.sample := by
  unfold do_output_reader_read
  rw [get_type_info_checked_registered type_registry type_name ti h]
  simp only [hm, Option.filter, hp, Bool.not_false, if_true]
  rcases local_port with ⟨status, sample⟩
  cases status <;> cases hc : RTEST copy_old_data <;>
    simp [InputPortInterface.read, TypelibMarshallerBase.refreshTypelibSample,
      TypelibMarshallerBase.setTypelibSample, TypelibMarshallerBase.createHandle, hc]

/-- In the direct strategy the value of the caller after the read is the same
whatever `copy_old_data` is: the flag is not passed to the port. -/
theorem direct_read_flag_irrelevant (type_registry : TypeInfoRepository)
    (local_port : InputPortInterface) (type_name : String) (value : Sample)
    (c1 c2 : RValue) (live_handles : Nat) (ti : TypeInfo)
    (h : type_registry type_name = some ti)
    (hd : get_typelib_transport ti false = Except.ok none) :
    (do_output_reader_read type_registry local_port type_name value c1 live_handles).value =
      (do_output_reader_read type_registry local_port type_name value c2
        live_handles).value := by
  unfold do_output_reader_read
  rw [get_type_info_checked_registered type_registry type_name ti h]
  simp only [hd, Option.filter]

/-- C10: for a registered type, in either strategy and whatever `copy_old_data` is,
`do_output_reader_read` returns a value, and that value is the image of the flow
status of the port alone: false for `NoData`, 0 for `OldData`, 1 for `NewData`;
the three values are pairwise distinct. -/
theorem do_output_reader_read_result (type_registry : TypeInfoRepository)
    (local_port : InputPortInterface) (type_name : String) (value : Sample)
    (copy_old_data : RValue) (live_handles : Nat) (ti : TypeInfo)
    (h : type_registry type_name = some ti) :
    (do_output_reader_read type_registry local_port type_name value copy_old_data
        live_handles).result = Except.ok (flowValue local_port.status) ∧
    flowValue FlowStatus.NoData = RValue.rfalse ∧
    flowValue FlowStatus.OldData = RValue.fixnum 0 ∧
    flowValue FlowStatus.NewData = RValue.fixnum 1 ∧
    (∀ s1 s2, flowValue s1 = flowValue s2 → s1 = s2) := by
  refine ⟨?_, rfl, rfl, rfl, ?_⟩
  · unfold do_output_reader_read
    rw [get_type_info_checked_registered type_registry type_name ti h]
    obtain ⟨t, ht⟩ := get_typelib_transport_unchecked ti
    simp only [ht]
    rcases local_port with ⟨status, sample⟩
    cases t.filter (fun m => !m.isPlainTypelibType) <;>
      cases status <;>
      simp [InputPortInterface.read_default, InputPortInterface.read, flowValue]
  · intro s1 s2
    cases s1 <;> cases s2 <;> simp [flowValue]

/-- C10, at a type with a typelib marshaller and a port that holds a new sample. -/
theorem do_output_reader_read_result_witness :
    (do_output_reader_read sampleTypes { status := FlowStatus.NewData, sample := [7] }
        "/base/Time" [1] RValue.rfalse 0).result = Except.ok (RValue.fixnum 1) :=
  (do_output_reader_read_result sampleTypes { status := FlowStatus.NewData, sample := [7] }
    "/base/Time" [1] RValue.rfalse 0 _ rfl).1

/-! ## Disconnecting ports -/

/-- C13: `do_port_disconnect_all` and `do_port_disconnect_from` raise `NotFound`
exactly when the remote call raises `CNoSuchPortException`, and when the remote call
raises no other CORBA exception that is the only way they fail. When the remote call
returns, `do_port_disconnect_all` returns nil and `do_port_disconnect_from` returns
the boolean of `removeConnection`: false is returned as false, not raised. -/
theorem disconnect_spec (w : World) (port other : Port) :
    ((∃ msg, (do_port_disconnect_all w port).2 = Except.error (RubyError.NotFound msg)) ↔
      w.disconnectPort port.task.ports port.name =
        CorbaResult.raised CorbaException.CNoSuchPortException) ∧
    ((∃ msg, (do_port_disconnect_from w port other).2 =
        Except.error (RubyError.NotFound msg)) ↔
      w.removeConnection port.task.ports port.name other.task.ports other.name =
        CorbaResult.raised CorbaException.CNoSuchPortException) ∧
    ((∀ e, w.disconnectPort port.task.ports port.name = CorbaResult.raised e →
        e = CorbaException.CNoSuchPortException) →
      ((do_port_disconnect_all w port).2.failed = true ↔
        w.disconnectPort port.task.ports port.name =
          CorbaResult.raised CorbaException.CNoSuchPortException)) ∧
    ((∀ e, w.removeConnection port.task.ports port.name other.task.ports other.name =
          CorbaResult.raised e → e = CorbaException.CNoSuchPortException) →
      ((do_port_disconnect_from w port other).2.failed = true ↔
        w.removeConnection port.task.ports port.name other.task.ports other.name =
          CorbaResult.raised CorbaException.CNoSuchPortException)) ∧
    (∀ u, w.disconnectPort port.task.ports port.name = CorbaResult.returned u →
      do_port_disconnect_all w port =
        ([RemoteCall.disconnectPort port.task.ports port.name], Except.ok RValue.nil)) ∧
    (∀ b, w.removeConnection port.task.ports port.name other.task.ports other.name =
        CorbaResult.returned b →
      do_port_disconnect_from w port other =
        ([RemoteCall.removeConnection port.task.ports port.name other.task.ports
            other.name], Except.ok (rbBool b))) ∧
    rbBool false = RValue.rfalse ∧ rbBool true = RValue.rtrue := by
  refine ⟨?_, ?_, ?_, ?_, ?_, ?_, rfl, rfl⟩
  · unfold do_port_disconnect_all
    simp only [getPortReference]
    rcases w.disconnectPort port.task.ports port.name with u | e
    · simp
    · cases e <;> simp [CORBA_EXCEPTION_HANDLERS]
  · unfold do_port_disconnect_from
    simp only [getPortReference]
    rcases w.removeConnection port.task.ports port.name other.task.ports other.name
      with b | e
    · simp
    · cases e <;> simp [CORBA_EXCEPTION_HANDLERS]
  · unfold do_port_disconnect_all
    simp only [getPortReference]
    rcases w.disconnectPort port.task.ports port.name with u | e
    · simp [Raises.failed]
    · intro h
      have := h e rfl
      subst this
      simp [Raises.failed]
  · unfold do_port_disconnect_from
    simp only [getPortReference]
    rcases w.removeConnection port.task.ports port.name other.task.ports other.name
      with b | e
    · simp [Raises.failed]
    · intro h
      have := h e rfl
      subst this
      simp [Raises.failed]
  · intro u h
    unfold do_port_disconnect_all
    simp only [getPortReference, h]
  · intro b h
    unfold do_port_disconnect_from
    simp only [getPortReference, h]

/-- C13, at two ports between which the remote side reports no connection. -/
theorem disconnect_spec_witness :
    do_port_disconnect_from
        (sampleWorld (CorbaResult.returned true) (CorbaResult.returned true) true)
        sampleOutput sampleInput =
      ([RemoteCall.removeConnection { ior := "IOR:ports" } "out" { ior := "IOR:ports2" }
          "in"], Except.ok RValue.rfalse) ∧
    do_port_disconnect_all
        (sampleWorld (CorbaResult.returned true) (CorbaResult.returned true) true)
        sampleOutput =
      ([RemoteCall.disconnectPort { ior := "IOR:ports" } "out"], Except.ok RValue.nil) :=
  ⟨(disconnect_spec _ sampleOutput sampleInput).2.2.2.2.2.1 false rfl,
   (disconnect_spec _ sampleOutput sampleInput).2.2.2.2.1 () rfl⟩

/-! ## Teardown of a local port -/

/-- C14: when `CorbaAccess::instance()` is null, `delete_port` performs no step and
leaves everything as it was; when it is live, `delete_port` disconnects the port,
removes it from the registry and deletes it, in that order, and the port is no
longer registered. -/
theorem delete_port_spec (port : LocalPort) :
    delete_port none port = (none, []) ∧
    (∀ corba : CorbaAccess,
      (delete_port (some corba) port).2 =
        [TeardownStep.disconnect port, TeardownStep.removePort port,
         TeardownStep.delete port] ∧
      (delete_port (some corba) port).1.map CorbaAccess.ports =
        some (corba.ports.filter (fun q => decide (q ≠ port))) ∧
      ∀ ports, (delete_port (some corba) port).1.map CorbaAccess.ports = some ports →
        port ∉ ports) := by
  refine ⟨rfl, fun corba => ⟨rfl, rfl, ?_⟩⟩
  intro ports h
  simp only [delete_port, Option.map_some', CorbaAccess.removePort, Option.some.injEq] at h
  subst h
  simp [List.mem_filter]

/-! ## Existence checks -/

/-- C17: `task_context_has_port_p` returns false exactly when the remote query raises
`CNoSuchPortException` and true exactly when the query returns;
`task_context_has_operation_p` returns false exactly when the remote query raises
`CNoSuchNameException` and true exactly when the query returns. Neither raises a
Ruby exception for that CORBA exception. -/
theorem existence_checks (w : World) (self : RTaskContext) (name : String) :
    (task_context_has_port_p w self name = Except.ok RValue.rfalse ↔
      w.getPortType self.ports name =
        CorbaResult.raised CorbaException.CNoSuchPortException) ∧
    (task_context_has_port_p w self name = Except.ok RValue.rtrue ↔
      ∃ t, w.getPortType self.ports name = CorbaResult.returned t) ∧
    (w.getPortType self.ports name =
        CorbaResult.raised CorbaException.CNoSuchPortException →
      (task_context_has_port_p w self name).failed = false) ∧
    (task_context_has_operation_p w self name = Except.ok RValue.rfalse ↔
      w.getResultType self.main_service name =
        CorbaResult.raised CorbaException.CNoSuchNameException) ∧
    (task_context_has_operation_p w self name = Except.ok RValue.rtrue ↔
      ∃ t, w.getResultType self.main_service name = CorbaResult.returned t) ∧
    (w.getResultType self.main_service name =
        CorbaResult.raised CorbaException.CNoSuchNameException →
      (task_context_has_operation_p w self name).failed = false) := by
  refine ⟨?_, ?_, ?_, ?_, ?_, ?_⟩
  · unfold task_context_has_port_p
    rcases w.getPortType self.ports name with t | e
    · simp
    · cases e <;> simp [CORBA_EXCEPTION_HANDLERS]
  · unfold task_context_has_port_p
    rcases w.getPortType self.ports name with t | e
    · simp
    · cases e <;> simp [CORBA_EXCEPTION_HANDLERS]
  · intro h
    simp [task_context_has_port_p, h, Raises.failed]
  · unfold task_context_has_operation_p
    rcases w.getResultType self.main_service name with t | e
    · simp
    · cases e <;> simp [CORBA_EXCEPTION_HANDLERS]
  · unfold task_context_has_operation_p
    rcases w.getResultType self.main_service name with t | e
    · simp
    · cases e <;> simp [CORBA_EXCEPTION_HANDLERS]
  · intro h
    simp [task_context_has_operation_p, h, Raises.failed]

/-- C17, at a remote task on which no name resolves, and at one on which the
queries return. -/
theorem existence_checks_witness :
    task_context_has_port_p missingWorld sampleTask "nowhere" = Except.ok RValue.rfalse ∧
    task_context_has_operation_p missingWorld sampleTask "nothing" =
      Except.ok RValue.rfalse ∧
    task_context_has_port_p
        (sampleWorld (CorbaResult.returned true) (CorbaResult.returned true) true)
        sampleTask "out" = Except.ok RValue.rtrue :=
  ⟨(existence_checks missingWorld sampleTask "nowhere").1.2 rfl,
   (existence_checks missingWorld sampleTask "nothing").2.2.2.1.2 rfl,
   (existence_checks _ sampleTask "out").2.1.2 ⟨CPortType.COutput, rfl⟩⟩

/-! ## Lookups in the type system -/

/-- The counterexample of C15: the type `foreignType` has a handler registered under
the id of the typelib marshaller, and the lookup without check returns nothing for
it, because the handler is not a typelib marshaller; the lookup with check does not
raise either and returns nothing. -/
theorem get_typelib_transport_foreign_handler :
    foreignType.hasProtocol TYPELIB_MARSHALLER_ID = true ∧
    (get_typelib_transport foreignType false).failed = false ∧
    (∀ m, get_typelib_transport foreignType false ≠ Except.ok (some m)) ∧
    (get_typelib_transport foreignType true).failed = false := by
  refine ⟨rfl, rfl, ?_, rfl⟩
  intro m h
  simp [get_typelib_transport, foreignType, TypeInfo.hasProtocol, TypeInfo.getProtocol,
    List.lookup, asTypelibMarshaller] at h

/-- C15 as amended: the checking lookup of a type raises exactly for an unregistered
name, and the lookup without check never raises and returns nothing exactly for an
unregistered name. For a type, the checking transport lookups raise exactly when no
handler is registered under the protocol id; the lookups without check never raise,
and return a transport exactly when the handler registered under the id is of the
class of that transport: they return nothing when there is no handler and when the
handler is of another class. -/
theorem type_lookups (type_registry : TypeInfoRepository) (name : String)
    (ti : TypeInfo) :
    ((get_type_info type_registry name true).failed = true ↔ type_registry name = none) ∧
    (get_type_info type_registry name false = Except.ok (type_registry name)) ∧
    ((get_corba_transport ti true).failed = true ↔
      ti.hasProtocol ORO_CORBA_PROTOCOL_ID = false) ∧
    ((get_typelib_transport ti true).failed = true ↔
      ti.hasProtocol TYPELIB_MARSHALLER_ID = false) ∧
    (get_corba_transport ti false =
      Except.ok (asCorbaTransporter (ti.getProtocol ORO_CORBA_PROTOCOL_ID))) ∧
    (get_typelib_transport ti false =
      Except.ok (asTypelibMarshaller (ti.getProtocol TYPELIB_MARSHALLER_ID))) ∧
    (ti.hasProtocol ORO_CORBA_PROTOCOL_ID = false →
      get_corba_transport ti false = Except.ok none) ∧
    (ti.hasProtocol TYPELIB_MARSHALLER_ID = false →
      get_typelib_transport ti false = Except.ok none) ∧
    (get_corba_transport ti false = Except.ok none ↔
      ti.getProtocol ORO_CORBA_PROTOCOL_ID ≠ some Transporter.corba) ∧
    (get_typelib_transport ti false = Except.ok none ↔
      ∀ m, ti.getProtocol TYPELIB_MARSHALLER_ID ≠ some (Transporter.typelib m)) ∧
    (type_registry name = some ti →
      get_corba_transport_by_name type_registry name true = get_corba_transport ti true ∧
      get_corba_transport_by_name type_registry name false =
        get_corba_transport ti false ∧
      get_typelib_transport_by_name type_registry name true =
        get_typelib_transport ti true ∧
      get_typelib_transport_by_name type_registry name false =
        get_typelib_transport ti false) ∧
    (type_registry name = none →
      (get_corba_transport_by_name type_registry name true).failed = true ∧
      get_corba_transport_by_name type_registry name false = Except.ok none ∧
      (get_typelib_transport_by_name type_registry name true).failed = true ∧
      get_typelib_transport_by_name type_registry name false = Except.ok none) := by
  refine ⟨?_, ?_, ?_, ?_, ?_, ?_, ?_, ?_, ?_, ?_, ?_, ?_⟩
  · cases h : type_registry name <;> simp [get_type_info, h, Raises.failed]
  · simp [get_type_info]
  · cases h : ti.hasProtocol ORO_CORBA_PROTOCOL_ID <;>
      simp [get_corba_transport, h, Raises.failed]
  · cases h : ti.hasProtocol TYPELIB_MARSHALLER_ID <;>
      simp [get_typelib_transport, h, Raises.failed]
  · cases h : ti.protocols.lookup ORO_CORBA_PROTOCOL_ID <;>
      simp [get_corba_transport, TypeInfo.hasProtocol, TypeInfo.getProtocol, h,
        asCorbaTransporter]
  · cases h : ti.protocols.lookup TYPELIB_MARSHALLER_ID <;>
      simp [get_typelib_transport, TypeInfo.hasProtocol, TypeInfo.getProtocol, h,
        asTypelibMarshaller]
  · intro h
    simp [get_corba_transport, h]
  · intro h
    simp [get_typelib_transport, h]
  · rcases h : ti.protocols.lookup ORO_CORBA_PROTOCOL_ID with _ | t
    · simp [get_corba_transport, TypeInfo.hasProtocol, TypeInfo.getProtocol, h]
    · cases t <;>
        simp [get_corba_transport, TypeInfo.hasProtocol, TypeInfo.getProtocol, h,
          asCorbaTransporter]
  · rcases h : ti.protocols.lookup TYPELIB_MARSHALLER_ID with _ | t
    · simp [get_typelib_transport, TypeInfo.hasProtocol, TypeInfo.getProtocol, h]
    · cases t <;>
        simp [get_typelib_transport, TypeInfo.hasProtocol, TypeInfo.getProtocol, h,
          asTypelibMarshaller]
  · intro h
    simp [get_corba_transport_by_name, get_typelib_transport_by_name, get_type_info, h]
  · intro h
    simp [get_corba_transport_by_name, get_typelib_transport_by_name, get_type_info, h,
      Raises.failed]

/-- C15 as amended, at the sample type system: an unregistered name, a type without
typelib marshaller, and a type with one. -/
theorem type_lookups_witness :
    (get_type_info sampleTypes "/unknown" true).failed = true ∧
    (get_typelib_transport
        { name := "/int32_t", protocols := [(ORO_CORBA_PROTOCOL_ID, Transporter.corba)] }
        true).failed = true ∧
    get_corba_transport_by_name sampleTypes "/unknown" false = Except.ok none :=
  ⟨(type_lookups sampleTypes "/unknown" foreignType).1.2 rfl,
   (type_lookups sampleTypes "/int32_t"
      { name := "/int32_t", protocols := [(ORO_CORBA_PROTOCOL_ID, Transporter.corba)] }
      ).2.2.2.1.2 rfl,
   ((type_lookups sampleTypes "/unknown" foreignType).2.2.2.2.2.2.2.2.2.2.2 rfl).2.1⟩

/-! ## Marshalling handles and strategies of reads and writes -/

/-- When no callee throws, the read with faults is the read: the same value of the
caller, the same result, and the live handles of the read are the handles before
plus those created minus those released. -/
theorem do_output_reader_read_with_faults_noFaults (type_registry : TypeInfoRepository)
    (local_port : InputPortInterface) (type_name : String) (value : Sample)
    (copy_old_data : RValue) (live_handles : Nat) :
    (do_output_reader_read_with_faults noFaults type_registry local_port type_name value
        copy_old_data).value =
      (do_output_reader_read type_registry local_port type_name value copy_old_data
        live_handles).value ∧
    live_handles +
        (do_output_reader_read_with_faults noFaults type_registry local_port type_name
          value copy_old_data).created -
        (do_output_reader_read_with_faults noFaults type_registry local_port type_name
          value copy_old_data).released =
      (do_output_reader_read type_registry local_port type_name value copy_old_data
        live_handles).live_handles ∧
    (do_output_reader_read_with_faults noFaults type_registry local_port type_name value
        copy_old_data).exit =
      match (do_output_reader_read type_registry local_port type_name value copy_old_data
        live_handles).result with
      | Except.ok a => Exit.returned a
      | Except.error e => Exit.raised e := by
  unfold do_output_reader_read_with_faults do_output_reader_read
  rcases get_type_info_checked type_registry type_name with e | ti
  · simp
  · obtain ⟨t, ht⟩ := get_typelib_transport_unchecked ti
    simp only [ht, noFaults]
    rcases local_port with ⟨status, sample⟩
    cases t.filter (fun m => !m.isPlainTypelibType) <;>
      cases status <;> cases hc : RTEST copy_old_data <;>
      simp [InputPortInterface.read_default, InputPortInterface.read, hc]

/-- The counterexample of C11: in the structural strategy, when the read of the port
or the write of the port throws, the function is left with the handle it created
not released. -/
theorem handle_not_released_when_port_throws :
    do_output_reader_read_with_faults readFault sampleTypes
        { status := FlowStatus.NewData, sample := [7] } "/base/Time" [1] RValue.rtrue =
      { exit := Exit.thrown { what := "read failed" }, value := [1], written := none,
        created := 1, released := 0 } ∧
    do_input_writer_write writeFault sampleTypes { connected := true, delivered := true }
        "/base/Time" [1] =
      { exit := Exit.thrown { what := "write failed" }, value := [1], written := none,
        created := 1, released := 0 } :=
  ⟨rfl, rfl⟩

/-- C11 as amended: whenever `do_output_reader_read` or `do_input_writer_write` is
left without a C++ exception, that is on `NewData`, `OldData` and `NoData`, after a
write, and when the type lookup raises, it has released as many handles as it
created, so the live handles after the call are those before it; in the structural
strategy that is exactly one handle created and one released. With no callee
throwing and a registered type, both functions return. -/
theorem handles_released_on_return (faults : Faults) (type_registry : TypeInfoRepository)
    (reader : InputPortInterface) (writer : OutputPortInterface) (type_name : String)
    (value : Sample) (copy_old_data : RValue) :
    ((do_output_reader_read_with_faults faults type_registry reader type_name value
          copy_old_data).exit.isThrown = false →
      (do_output_reader_read_with_faults faults type_registry reader type_name value
          copy_old_data).created =
        (do_output_reader_read_with_faults faults type_registry reader type_name value
          copy_old_data).released ∧
      ((do_output_reader_read_with_faults faults type_registry reader type_name value
          copy_old_data).strategy = MarshallingStrategy.Structural →
        (do_output_reader_read_with_faults faults type_registry reader type_name value
          copy_old_data).released = 1)) ∧
    ((do_input_writer_write faults type_registry writer type_name value).exit.isThrown =
          false →
      (do_input_writer_write faults type_registry writer type_name value).created =
        (do_input_writer_write faults type_registry writer type_name value).released ∧
      ((do_input_writer_write faults type_registry writer type_name value).strategy =
          MarshallingStrategy.Structural →
        (do_input_writer_write faults type_registry writer type_name value).released
          = 1)) ∧
    (∀ ti, type_registry type_name = some ti → faults = noFaults →
      (do_output_reader_read_with_faults faults type_registry reader type_name value
          copy_old_data).exit = Exit.returned (flowValue reader.status) ∧
      (do_input_writer_write faults type_registry writer type_name value).exit =
        Exit.returned (rbBool writer.connected)) := by
  refine ⟨?_, ?_, ?_⟩
  · unfold do_output_reader_read_with_faults
    rcases get_type_info_checked type_registry type_name with e | ti
    · simp [DataRun.strategy, Exit.isThrown]
    · obtain ⟨t, ht⟩ := get_typelib_transport_unchecked ti
      simp only [ht]
      rcases reader with ⟨status, sample⟩
      cases t.filter (fun m => !m.isPlainTypelibType) <;>
        cases faults DataStep.portRead <;> cases faults DataStep.refreshSample <;>
        cases faults DataStep.copySample <;>
        cases status <;> cases hc : RTEST copy_old_data <;>
        simp [InputPortInterface.read_default, InputPortInterface.read, hc,
          DataRun.strategy, Exit.isThrown]
  · unfold do_input_writer_write
    rcases get_type_info_checked type_registry type_name with e | ti
    · simp [DataRun.strategy, Exit.isThrown]
    · simp only []
      cases (if ti.hasProtocol TYPELIB_MARSHALLER_ID = true then
          asTypelibMarshaller (ti.getProtocol TYPELIB_MARSHALLER_ID) else none) <;>
        cases faults DataStep.portWrite <;> cases faults DataStep.setSample <;>
        simp [DataRun.strategy, Exit.isThrown]
  · intro ti hti hf
    subst hf
    constructor
    · unfold do_output_reader_read_with_faults
      rw [get_type_info_checked_registered type_registry type_name ti hti]
      obtain ⟨t, ht⟩ := get_typelib_transport_unchecked ti
      simp only [ht, noFaults]
      rcases reader with ⟨status, sample⟩
      cases t.filter (fun m => !m.isPlainTypelibType) <;>
        cases status <;> cases hc : RTEST copy_old_data <;>
        simp [InputPortInterface.read_default, InputPortInterface.read, hc, flowValue]
    · unfold do_input_writer_write
      rw [get_type_info_checked_registered type_registry type_name ti hti]
      simp only [noFaults]
      cases (if ti.hasProtocol TYPELIB_MARSHALLER_ID = true then
          asTypelibMarshaller (ti.getProtocol TYPELIB_MARSHALLER_ID) else none) <;>
        simp

/-- C11 as amended, at a read and a write of a type with a typelib marshaller. -/
theorem handles_released_on_return_witness :
    (do_output_reader_read_with_faults noFaults sampleTypes
        { status := FlowStatus.OldData, sample := [7] } "/base/Time" [1]
        RValue.rfalse).released = 1 ∧
    (do_output_reader_read_with_faults noFaults sampleTypes
        { status := FlowStatus.OldData, sample := [7] } "/base/Time" [1]
        RValue.rfalse).created = 1 ∧
    (do_input_writer_write noFaults sampleTypes { connected := true, delivered := false }
        "/base/Time" [1]).released = 1 ∧
    (do_input_writer_write noFaults sampleTypes { connected := true, delivered := false }
        "/base/Time" [1]).exit = Exit.returned RValue.rtrue :=
  ⟨((handles_released_on_return noFaults sampleTypes
        { status := FlowStatus.OldData, sample := [7] }
        { connected := true, delivered := false } "/base/Time" [1] RValue.rfalse).1
      rfl).2 rfl,
   rfl,
   ((handles_released_on_return noFaults sampleTypes
        { status := FlowStatus.OldData, sample := [7] }
        { connected := true, delivered := false } "/base/Time" [1] RValue.rfalse).2.1
      rfl).2 rfl,
   ((handles_released_on_return noFaults sampleTypes
        { status := FlowStatus.OldData, sample := [7] }
        { connected := true, delivered := false } "/base/Time" [1] RValue.rfalse).2.2
      _ rfl rfl).2⟩

/-- The marshaller `get_typelib_transport` finds for a type, with or without check. -/
theorem get_typelib_transport_eq (ti : TypeInfo) :
    get_typelib_transport ti false =
      Except.ok (if ti.hasProtocol TYPELIB_MARSHALLER_ID = true then
        asTypelibMarshaller (ti.getProtocol TYPELIB_MARSHALLER_ID) else none) := by
  unfold get_typelib_transport
  split <;> simp

/-- The counterexample of C12: for the type `/double`, whose typelib marshaller is a
plain typelib type, the read takes the direct strategy and the write takes the
structural strategy. -/
theorem plain_type_strategies_differ :
    plainTypes "/double" = some plainType ∧
    (∃ m, get_typelib_transport plainType false = Except.ok (some m)) ∧
    (do_output_reader_read_with_faults noFaults plainTypes
        { status := FlowStatus.NewData, sample := [7] } "/double" [1]
        RValue.rtrue).strategy = MarshallingStrategy.Direct ∧
    (do_input_writer_write noFaults plainTypes { connected := true, delivered := true }
        "/double" [1]).strategy = MarshallingStrategy.Structural :=
  ⟨rfl, ⟨plainMarshaller, rfl⟩, rfl, rfl⟩

/-- C12 as amended: for every registered type, `do_input_writer_write` takes the
structural strategy exactly when the type has a typelib marshaller, and
`do_output_reader_read` takes it exactly when the type has a typelib marshaller that
is not a plain typelib type; each takes the direct strategy otherwise. The two take
the same strategy for every type whose marshaller, if it has one, is not a plain
typelib type. -/
theorem strategy_selection (faults : Faults) (type_registry : TypeInfoRepository)
    (reader : InputPortInterface) (writer : OutputPortInterface) (type_name : String)
    (value : Sample) (copy_old_data : RValue) (ti : TypeInfo)
    (h : type_registry type_name = some ti) :
    ((do_input_writer_write faults type_registry writer type_name value).strategy =
        MarshallingStrategy.Structural ↔
      ∃ m, get_typelib_transport ti false = Except.ok (some m)) ∧
    ((do_output_reader_read_with_faults faults type_registry reader type_name value
        copy_old_data).strategy = MarshallingStrategy.Structural ↔
      ∃ m, get_typelib_transport ti false = Except.ok (some m) ∧
        m.isPlainTypelibType = false) ∧
    ((do_input_writer_write faults type_registry writer type_name value).strategy =
        MarshallingStrategy.Direct ↔
      get_typelib_transport ti false = Except.ok none) ∧
    ((∀ m, get_typelib_transport ti false = Except.ok (some m) →
        m.isPlainTypelibType = false) →
      (do_output_reader_read_with_faults faults type_registry reader type_name value
          copy_old_data).strategy =
        (do_input_writer_write faults type_registry writer type_name value).strategy) := by
  have hw : (do_input_writer_write faults type_registry writer type_name value).strategy =
      match (if ti.hasProtocol TYPELIB_MARSHALLER_ID = true then
        asTypelibMarshaller (ti.getProtocol TYPELIB_MARSHALLER_ID) else none) with
      | none => MarshallingStrategy.Direct
      | some _ => MarshallingStrategy.Structural := by
    unfold do_input_writer_write
    rw [get_type_info_checked_registered type_registry type_name ti h]
    simp only []
    cases (if ti.hasProtocol TYPELIB_MARSHALLER_ID = true then
        asTypelibMarshaller (ti.getProtocol TYPELIB_MARSHALLER_ID) else none) <;>
      cases faults DataStep.portWrite <;> cases faults DataStep.setSample <;>
      simp [DataRun.strategy]
  have hr : (do_output_reader_read_with_faults faults type_registry reader type_name value
      copy_old_data).strategy =
      match (if ti.hasProtocol TYPELIB_MARSHALLER_ID = true then
        asTypelibMarshaller (ti.getProtocol TYPELIB_MARSHALLER_ID) else none) with
      | none => MarshallingStrategy.Direct
      | some m =>
        if m.isPlainTypelibType then MarshallingStrategy.Direct
        else MarshallingStrategy.Structural := by
    unfold do_output_reader_read_with_faults
    rw [get_type_info_checked_registered type_registry type_name ti h]
    simp only [get_typelib_transport_eq]
    rcases reader with ⟨status, sample⟩
    rcases (if ti.hasProtocol TYPELIB_MARSHALLER_ID = true then
        asTypelibMarshaller (ti.getProtocol TYPELIB_MARSHALLER_ID) else none) with _ | m
    · cases faults DataStep.portRead <;> cases status <;>
        simp [InputPortInterface.read_default, InputPortInterface.read, DataRun.strategy]
    · cases hp : m.isPlainTypelibType <;>
        cases faults DataStep.portRead <;> cases faults DataStep.refreshSample <;>
        cases faults DataStep.copySample <;>
        cases status <;> cases hc : RTEST copy_old_data <;>
        simp [InputPortInterface.read_default, InputPortInterface.read, hc, hp,
          Option.filter, DataRun.strategy]
  rw [hw, hr, get_typelib_transport_eq]
  rcases (if ti.hasProtocol TYPELIB_MARSHALLER_ID = true then
      asTypelibMarshaller (ti.getProtocol TYPELIB_MARSHALLER_ID) else none) with _ | m
  · simp
  · cases hp : m.isPlainTypelibType <;> simp [hp]

/-- C12 as amended, at a type without typelib marshaller: both take the direct
strategy. -/
theorem strategy_selection_witness :
    sampleTypes "/int32_t" =
      some { name := "/int32_t", protocols := [(ORO_CORBA_PROTOCOL_ID, Transporter.corba)] } ∧
    (do_input_writer_write noFaults sampleTypes { connected := true, delivered := true }
        "/int32_t" [1]).strategy = MarshallingStrategy.Direct ∧
    (do_output_reader_read_with_faults noFaults sampleTypes
        { status := FlowStatus.NewData, sample := [7] } "/int32_t" [1]
        RValue.rtrue).strategy =
      (do_input_writer_write noFaults sampleTypes { connected := true, delivered := true }
        "/int32_t" [1]).strategy :=
  ⟨rfl,
   (strategy_selection noFaults sampleTypes { status := FlowStatus.NewData, sample := [7] }
      { connected := true, delivered := true } "/int32_t" [1] RValue.rtrue _ rfl).2.2.1.2
      rfl,
   (strategy_selection noFaults sampleTypes { status := FlowStatus.NewData, sample := [7] }
      { connected := true, delivered := true } "/int32_t" [1] RValue.rtrue _ rfl).2.2.2
      (fun m hm => by
        simp [get_typelib_transport, TypeInfo.hasProtocol, List.lookup,
          ORO_CORBA_PROTOCOL_ID, TYPELIB_MARSHALLER_ID] at hm)⟩

/-! ## Writing a sample -/

/-- C16: for a registered type and with no callee throwing, `do_input_writer_write`
returns, in both strategies, the Ruby boolean of what `connected()` reports after the
write was issued; the result is the same for every sample written and whether or not
the write delivered the sample. -/
theorem do_input_writer_write_result (faults : Faults)
    (type_registry : TypeInfoRepository) (local_port : OutputPortInterface)
    (type_name : String) (value : Sample) (ti : TypeInfo)
    (h : type_registry type_name = some ti)
    (hset : faults DataStep.setSample = none)
    (hwrite : faults DataStep.portWrite = none) :
    (do_input_writer_write faults type_registry local_port type_name value).exit =
      Exit.returned (rbBool local_port.connected) ∧
    (∀ (value2 : Sample) (delivered2 : Bool),
      (do_input_writer_write faults type_registry
          { connected := local_port.connected, delivered := delivered2 } type_name
          value2).exit =
        (do_input_writer_write faults type_registry local_port type_name value).exit) ∧
    rbBool true = RValue.rtrue ∧ rbBool false = RValue.rfalse := by
  have key : ∀ (port : OutputPortInterface) (v : Sample),
      (do_input_writer_write faults type_registry port type_name v).exit =
        Exit.returned (rbBool port.connected) := by
    intro port v
    unfold do_input_writer_write
    rw [get_type_info_checked_registered type_registry type_name ti h]
    simp only [hset, hwrite]
    cases (if ti.hasProtocol TYPELIB_MARSHALLER_ID = true then
        asTypelibMarshaller (ti.getProtocol TYPELIB_MARSHALLER_ID) else none) <;>
      simp
  refine ⟨key local_port value, ?_, rfl, rfl⟩
  intro value2 delivered2
  rw [key, key]

/-- C16, at a connected port whose write does not deliver the sample, in the
structural strategy. -/
theorem do_input_writer_write_result_witness :
    (do_input_writer_write noFaults sampleTypes { connected := true, delivered := false }
        "/base/Time" [1, 2]).exit = Exit.returned RValue.rtrue :=
  (do_input_writer_write_result noFaults sampleTypes
    { connected := true, delivered := false } "/base/Time" [1, 2] _ rfl rfl rfl).1

/-- C14, at a live CORBA access object with the port registered, and at none. -/
theorem delete_port_spec_witness :
    (delete_port (some sampleCorba) earlierPort).1.map CorbaAccess.ports = some [] ∧
    (delete_port (some sampleCorba) earlierPort).2 =
      [TeardownStep.disconnect earlierPort, TeardownStep.removePort earlierPort,
       TeardownStep.delete earlierPort] ∧
    (delete_port none earlierPort).2 = [] :=
  ⟨((delete_port_spec earlierPort).2 sampleCorba).2.1,
   ((delete_port_spec earlierPort).2 sampleCorba).1,
   congrArg Prod.snd (delete_port_spec earlierPort).1⟩

end Orocos
